import Mathlib

/-!
# Type-handler registry of `sql/sql_type.cc`

A shallow embedding of the registry part of `sql/sql_type.cc`: the handler
singletons, the two string-handler selectors and the three lookups by type code.

Conventions of the embedding.

* A pointer `const Type_handler *` to one of the static singletons is a value of
  the inductive type `Type_handler`; pointer equality is equality of constructors.
  A possibly-null pointer is an `Option Type_handler`, `none` being `NULL`.
* A C++ `uint` is a `Nat`; none of the functions below computes a value that
  could wrap around, so no reduction modulo `2^32` is needed.
* A function that may stop at a failed `DBUG_ASSERT`, or whose behaviour is
  undefined on some input, returns an `Outcome`.
-/

/-! ## Build configuration -/

/-- Compile-time switches the translation unit depends on. -/
structure Build where
  /-- The macro `HAVE_SPATIAL` is defined. -/
  HAVE_SPATIAL : Bool
  /-- Debug build: `DBUG_ASSERT(x)` is `assert(x)`. In a build with assertions
  compiled out `DBUG_ASSERT(x)` expands to nothing. -/
  DBUG_ASSERT_enabled : Bool
  deriving DecidableEq, Repr

/-- How a call ends. -/
inductive Outcome (α : Type) where
  /-- The function returns `value`. -/
  | returns (value : α)
  /-- A `DBUG_ASSERT` failed: the process is aborted. -/
  | assert_failed
  /-- The call has undefined behaviour (integer division by zero). -/
  | undefined_behaviour
  deriving DecidableEq, Repr

/-- The statement `DBUG_ASSERT(cond);` followed by the rest `k` of the function body. -/
def DBUG_ASSERT {α : Type} (cfg : Build) (cond : Bool) (k : Outcome α) : Outcome α :=
  if cfg.DBUG_ASSERT_enabled && !cond then Outcome.assert_failed else k

/-! ## Enumerations -/

/-- A value of a C++ enumeration type `E` as a `switch` statement receives it:
one of the enumerators, or an integer value that equals none of them (and so
matches no `case` label). -/
inductive Enum_value (E : Type) where
  | enumerator (e : E)
  | out_of_range (raw : Int)
  deriving DecidableEq, Repr

/-- The enumerators of `enum_field_types`: exactly the `case` labels of the
switch in `get_handler_by_field_type` and `get_handler_by_real_type`. -/
inductive enum_field_types where
  | MYSQL_TYPE_DECIMAL
  | MYSQL_TYPE_NEWDECIMAL
  | MYSQL_TYPE_TINY
  | MYSQL_TYPE_SHORT
  | MYSQL_TYPE_LONG
  | MYSQL_TYPE_LONGLONG
  | MYSQL_TYPE_INT24
  | MYSQL_TYPE_YEAR
  | MYSQL_TYPE_BIT
  | MYSQL_TYPE_FLOAT
  | MYSQL_TYPE_DOUBLE
  | MYSQL_TYPE_NULL
  | MYSQL_TYPE_VARCHAR
  | MYSQL_TYPE_TINY_BLOB
  | MYSQL_TYPE_MEDIUM_BLOB
  | MYSQL_TYPE_LONG_BLOB
  | MYSQL_TYPE_BLOB
  | MYSQL_TYPE_VAR_STRING
  | MYSQL_TYPE_STRING
  | MYSQL_TYPE_ENUM
  | MYSQL_TYPE_SET
  | MYSQL_TYPE_GEOMETRY
  | MYSQL_TYPE_TIMESTAMP
  | MYSQL_TYPE_TIMESTAMP2
  | MYSQL_TYPE_DATE
  | MYSQL_TYPE_TIME
  | MYSQL_TYPE_TIME2
  | MYSQL_TYPE_DATETIME
  | MYSQL_TYPE_DATETIME2
  | MYSQL_TYPE_NEWDATE
  deriving DecidableEq, Repr

/-- The enumerators of `Item_result`: the `case` labels of the switch in
`get_handler_by_cmp_type`. -/
inductive Item_result where
  | REAL_RESULT
  | INT_RESULT
  | DECIMAL_RESULT
  | STRING_RESULT
  | TIME_RESULT
  | ROW_RESULT
  deriving DecidableEq, Repr

/-! ## The handler singletons (sql_type.cc, lines 23-56) -/

/-- The static handler objects. `type_handler_geometry` is defined only under
`HAVE_SPATIAL`; the code refers to it only under that macro. -/
inductive Type_handler where
  | type_handler_tiny
  | type_handler_short
  | type_handler_long
  | type_handler_longlong
  | type_handler_int24
  | type_handler_year
  | type_handler_bit
  | type_handler_float
  | type_handler_double
  | type_handler_time
  | type_handler_time2
  | type_handler_date
  | type_handler_newdate
  | type_handler_datetime
  | type_handler_datetime2
  | type_handler_timestamp
  | type_handler_timestamp2
  | type_handler_olddecimal
  | type_handler_newdecimal
  | type_handler_string
  | type_handler_tiny_blob
  | type_handler_medium_blob
  | type_handler_long_blob
  | type_handler_blob
  | type_handler_geometry
  | type_handler_enum
  | type_handler_set
  | type_handler_null
  | type_handler_row
  | type_handler_varchar
  deriving DecidableEq, Repr

open Type_handler enum_field_types Item_result

/-- The part of `CHARSET_INFO` the code reads: the character set's number and
`mbmaxlen`, the maximum number of bytes per character. -/
structure CHARSET_INFO where
  number : Nat
  mbmaxlen : Nat
  deriving DecidableEq, Repr

/-! ## String handler selection (sql_type.cc, lines 73-101) -/

/-- `Type_handler::string_type_handler(uint max_octet_length)`. -/
def Type_handler.string_type_handler (max_octet_length : Nat) : Type_handler :=
  if max_octet_length ≥ 16777216 then
    type_handler_long_blob
  else if max_octet_length ≥ 65536 then
    type_handler_medium_blob
  else
    type_handler_varchar

/-- `Type_handler_string_result::type_handler_adjusted_to_max_octet_length`.
The macro `CONVERT_IF_BIGGER_TO_BLOB` is defined in a header that is not among
the sources, so its value is a parameter. The quotient
`max_octet_length / cs->mbmaxlen` is an unsigned division, undefined for a zero
divisor. -/
def Type_handler_string_result.type_handler_adjusted_to_max_octet_length
    (CONVERT_IF_BIGGER_TO_BLOB : Nat) (max_octet_length : Nat) (cs : CHARSET_INFO) :
    Outcome Type_handler :=
  if cs.mbmaxlen = 0 then
    Outcome.undefined_behaviour
  else if max_octet_length / cs.mbmaxlen ≤ CONVERT_IF_BIGGER_TO_BLOB then
    Outcome.returns type_handler_varchar
  else if max_octet_length ≥ 16777216 then
    Outcome.returns type_handler_long_blob
  else if max_octet_length ≥ 65536 then
    Outcome.returns type_handler_medium_blob
  else
    Outcome.returns type_handler_blob

/-! ## Lookups by type code (sql_type.cc, lines 104-226) -/

/-- `Type_handler::get_handler_by_cmp_type(Item_result type)`. -/
def Type_handler.get_handler_by_cmp_type (cfg : Build) (type : Enum_value Item_result) :
    Outcome (Option Type_handler) :=
  match type with
  | .enumerator REAL_RESULT => .returns (some type_handler_double)
  | .enumerator INT_RESULT => .returns (some type_handler_longlong)
  | .enumerator DECIMAL_RESULT => .returns (some type_handler_newdecimal)
  | .enumerator STRING_RESULT => .returns (some type_handler_long_blob)
  | .enumerator TIME_RESULT => .returns (some type_handler_datetime)
  | .enumerator ROW_RESULT => .returns (some type_handler_row)
  | .out_of_range _ =>
    DBUG_ASSERT cfg false (.returns (some type_handler_string))

/-- `Type_handler::get_handler_by_field_type(enum_field_types type)`. -/
def Type_handler.get_handler_by_field_type (cfg : Build)
    (type : Enum_value enum_field_types) : Outcome (Option Type_handler) :=
  match type with
  | .enumerator MYSQL_TYPE_DECIMAL => .returns (some type_handler_olddecimal)
  | .enumerator MYSQL_TYPE_NEWDECIMAL => .returns (some type_handler_newdecimal)
  | .enumerator MYSQL_TYPE_TINY => .returns (some type_handler_tiny)
  | .enumerator MYSQL_TYPE_SHORT => .returns (some type_handler_short)
  | .enumerator MYSQL_TYPE_LONG => .returns (some type_handler_long)
  | .enumerator MYSQL_TYPE_LONGLONG => .returns (some type_handler_longlong)
  | .enumerator MYSQL_TYPE_INT24 => .returns (some type_handler_int24)
  | .enumerator MYSQL_TYPE_YEAR => .returns (some type_handler_year)
  | .enumerator MYSQL_TYPE_BIT => .returns (some type_handler_bit)
  | .enumerator MYSQL_TYPE_FLOAT => .returns (some type_handler_float)
  | .enumerator MYSQL_TYPE_DOUBLE => .returns (some type_handler_double)
  | .enumerator MYSQL_TYPE_NULL => .returns (some type_handler_null)
  | .enumerator MYSQL_TYPE_VARCHAR => .returns (some type_handler_varchar)
  | .enumerator MYSQL_TYPE_TINY_BLOB => .returns (some type_handler_tiny_blob)
  | .enumerator MYSQL_TYPE_MEDIUM_BLOB => .returns (some type_handler_medium_blob)
  | .enumerator MYSQL_TYPE_LONG_BLOB => .returns (some type_handler_long_blob)
  | .enumerator MYSQL_TYPE_BLOB => .returns (some type_handler_blob)
  | .enumerator MYSQL_TYPE_VAR_STRING => .returns (some type_handler_varchar) -- Map to VARCHAR
  | .enumerator MYSQL_TYPE_STRING => .returns (some type_handler_string)
  | .enumerator MYSQL_TYPE_ENUM => .returns (some type_handler_varchar) -- Map to VARCHAR
  | .enumerator MYSQL_TYPE_SET => .returns (some type_handler_varchar) -- Map to VARCHAR
  | .enumerator MYSQL_TYPE_GEOMETRY =>
    if cfg.HAVE_SPATIAL then .returns (some type_handler_geometry) else .returns none
  | .enumerator MYSQL_TYPE_TIMESTAMP => .returns (some type_handler_timestamp2) -- Map to timestamp2
  | .enumerator MYSQL_TYPE_TIMESTAMP2 => .returns (some type_handler_timestamp2)
  | .enumerator MYSQL_TYPE_DATE => .returns (some type_handler_newdate) -- Map to newdate
  | .enumerator MYSQL_TYPE_TIME => .returns (some type_handler_time2) -- Map to time2
  | .enumerator MYSQL_TYPE_TIME2 => .returns (some type_handler_time2)
  | .enumerator MYSQL_TYPE_DATETIME => .returns (some type_handler_datetime2) -- Map to datetime2
  | .enumerator MYSQL_TYPE_DATETIME2 => .returns (some type_handler_datetime2)
  | .enumerator MYSQL_TYPE_NEWDATE => .returns (some type_handler_newdate)
  | .out_of_range _ =>
    DBUG_ASSERT cfg false (.returns (some type_handler_string))

/-- `Type_handler::get_handler_by_real_type(enum_field_types type)`. -/
def Type_handler.get_handler_by_real_type (cfg : Build)
    (type : Enum_value enum_field_types) : Outcome (Option Type_handler) :=
  match type with
  | .enumerator MYSQL_TYPE_DECIMAL => .returns (some type_handler_olddecimal)
  | .enumerator MYSQL_TYPE_NEWDECIMAL => .returns (some type_handler_newdecimal)
  | .enumerator MYSQL_TYPE_TINY => .returns (some type_handler_tiny)
  | .enumerator MYSQL_TYPE_SHORT => .returns (some type_handler_short)
  | .enumerator MYSQL_TYPE_LONG => .returns (some type_handler_long)
  | .enumerator MYSQL_TYPE_LONGLONG => .returns (some type_handler_longlong)
  | .enumerator MYSQL_TYPE_INT24 => .returns (some type_handler_int24)
  | .enumerator MYSQL_TYPE_YEAR => .returns (some type_handler_year)
  | .enumerator MYSQL_TYPE_BIT => .returns (some type_handler_bit)
  | .enumerator MYSQL_TYPE_FLOAT => .returns (some type_handler_float)
  | .enumerator MYSQL_TYPE_DOUBLE => .returns (some type_handler_double)
  | .enumerator MYSQL_TYPE_NULL => .returns (some type_handler_null)
  | .enumerator MYSQL_TYPE_VARCHAR => .returns (some type_handler_varchar)
  | .enumerator MYSQL_TYPE_TINY_BLOB => .returns (some type_handler_tiny_blob)
  | .enumerator MYSQL_TYPE_MEDIUM_BLOB => .returns (some type_handler_medium_blob)
  | .enumerator MYSQL_TYPE_LONG_BLOB => .returns (some type_handler_long_blob)
  | .enumerator MYSQL_TYPE_BLOB => .returns (some type_handler_blob)
  | .enumerator MYSQL_TYPE_VAR_STRING => .returns (some type_handler_string)
  | .enumerator MYSQL_TYPE_STRING => .returns (some type_handler_string)
  | .enumerator MYSQL_TYPE_ENUM => .returns (some type_handler_enum)
  | .enumerator MYSQL_TYPE_SET => .returns (some type_handler_set)
  | .enumerator MYSQL_TYPE_GEOMETRY =>
    if cfg.HAVE_SPATIAL then .returns (some type_handler_geometry) else .returns none
  | .enumerator MYSQL_TYPE_TIMESTAMP => .returns (some type_handler_timestamp)
  | .enumerator MYSQL_TYPE_TIMESTAMP2 => .returns (some type_handler_timestamp2)
  | .enumerator MYSQL_TYPE_DATE => .returns (some type_handler_date)
  | .enumerator MYSQL_TYPE_TIME => .returns (some type_handler_time)
  | .enumerator MYSQL_TYPE_TIME2 => .returns (some type_handler_time2)
  | .enumerator MYSQL_TYPE_DATETIME => .returns (some type_handler_datetime)
  | .enumerator MYSQL_TYPE_DATETIME2 => .returns (some type_handler_datetime2)
  | .enumerator MYSQL_TYPE_NEWDATE => .returns (some type_handler_newdate)
  | .out_of_range _ =>
    DBUG_ASSERT cfg false (.returns (some type_handler_string))

/-! ## Comparison category of a handler -/

/-- Modelled from the spec: `cmp_type()`, the comparison category of a handler.
It is fixed by the handler class declarations of sql_type.h, which is not among
the sources. The spec gives every handler exactly one category out of INTEGER,
REAL, DECIMAL, STRING, TEMPORAL and ROW, fixed at construction: the integer
variants with YEAR and BIT are INTEGER, FLOAT and DOUBLE are REAL, both decimal
handlers are DECIMAL, the character, blob, enum, set, geometry and null handlers
are STRING, every date and time handler (legacy or fractional) is TEMPORAL, and
the row handler is ROW. -/
def Type_handler.cmp_type : Type_handler → Item_result
  | type_handler_tiny => INT_RESULT
  | type_handler_short => INT_RESULT
  | type_handler_long => INT_RESULT
  | type_handler_longlong => INT_RESULT
  | type_handler_int24 => INT_RESULT
  | type_handler_year => INT_RESULT
  | type_handler_bit => INT_RESULT
  | type_handler_float => REAL_RESULT
  | type_handler_double => REAL_RESULT
  | type_handler_time => TIME_RESULT
  | type_handler_time2 => TIME_RESULT
  | type_handler_date => TIME_RESULT
  | type_handler_newdate => TIME_RESULT
  | type_handler_datetime => TIME_RESULT
  | type_handler_datetime2 => TIME_RESULT
  | type_handler_timestamp => TIME_RESULT
  | type_handler_timestamp2 => TIME_RESULT
  | type_handler_olddecimal => DECIMAL_RESULT
  | type_handler_newdecimal => DECIMAL_RESULT
  | type_handler_string => STRING_RESULT
  | type_handler_tiny_blob => STRING_RESULT
  | type_handler_medium_blob => STRING_RESULT
  | type_handler_long_blob => STRING_RESULT
  | type_handler_blob => STRING_RESULT
  | type_handler_geometry => STRING_RESULT
  | type_handler_enum => STRING_RESULT
  | type_handler_set => STRING_RESULT
  | type_handler_null => STRING_RESULT
  | type_handler_row => ROW_RESULT
  | type_handler_varchar => STRING_RESULT

/-! ## Specification-side tables -/

/-- The reference table of claim C4, by field type code: the comparison category
the specification expects of the handler looked up for that code. -/
def spec_cmp_type_of_field_type : enum_field_types → Item_result
  | MYSQL_TYPE_TINY => INT_RESULT
  | MYSQL_TYPE_SHORT => INT_RESULT
  | MYSQL_TYPE_INT24 => INT_RESULT
  | MYSQL_TYPE_LONG => INT_RESULT
  | MYSQL_TYPE_LONGLONG => INT_RESULT
  | MYSQL_TYPE_YEAR => INT_RESULT
  | MYSQL_TYPE_BIT => INT_RESULT
  | MYSQL_TYPE_FLOAT => REAL_RESULT
  | MYSQL_TYPE_DOUBLE => REAL_RESULT
  | MYSQL_TYPE_DECIMAL => DECIMAL_RESULT
  | MYSQL_TYPE_NEWDECIMAL => DECIMAL_RESULT
  | MYSQL_TYPE_VARCHAR => STRING_RESULT
  | MYSQL_TYPE_VAR_STRING => STRING_RESULT
  | MYSQL_TYPE_STRING => STRING_RESULT
  | MYSQL_TYPE_ENUM => STRING_RESULT
  | MYSQL_TYPE_SET => STRING_RESULT
  | MYSQL_TYPE_TINY_BLOB => STRING_RESULT
  | MYSQL_TYPE_BLOB => STRING_RESULT
  | MYSQL_TYPE_MEDIUM_BLOB => STRING_RESULT
  | MYSQL_TYPE_LONG_BLOB => STRING_RESULT
  | MYSQL_TYPE_GEOMETRY => STRING_RESULT
  | MYSQL_TYPE_NULL => STRING_RESULT
  | MYSQL_TYPE_TIMESTAMP => TIME_RESULT
  | MYSQL_TYPE_TIMESTAMP2 => TIME_RESULT
  | MYSQL_TYPE_DATE => TIME_RESULT
  | MYSQL_TYPE_NEWDATE => TIME_RESULT
  | MYSQL_TYPE_TIME => TIME_RESULT
  | MYSQL_TYPE_TIME2 => TIME_RESULT
  | MYSQL_TYPE_DATETIME => TIME_RESULT
  | MYSQL_TYPE_DATETIME2 => TIME_RESULT

/-- The codes on which, by the wording of claim C8, the real-type lookup departs
from the field-type lookup: ENUM, SET and the legacy temporal codes. -/
def spec_storage_type_varies : enum_field_types → Bool
  | MYSQL_TYPE_ENUM => true
  | MYSQL_TYPE_SET => true
  | MYSQL_TYPE_TIMESTAMP => true
  | MYSQL_TYPE_DATE => true
  | MYSQL_TYPE_TIME => true
  | MYSQL_TYPE_DATETIME => true
  | _ => false

/-- The three BLOB tiers by octet length alone, with the cut-offs of
`string_type_handler` and plain BLOB as the smallest tier. -/
def spec_blob_tier (max_octet_length : Nat) : Type_handler :=
  if max_octet_length < 65536 then type_handler_blob
  else if max_octet_length < 16777216 then type_handler_medium_blob
  else type_handler_long_blob

/-- The table of claim C11: the canonical representative handler the
specification names for each comparison category. -/
def spec_cmp_type_representative : Item_result → Type_handler
  | REAL_RESULT => type_handler_double
  | INT_RESULT => type_handler_longlong
  | DECIMAL_RESULT => type_handler_newdecimal
  | STRING_RESULT => type_handler_long_blob
  | TIME_RESULT => type_handler_datetime
  | ROW_RESULT => type_handler_row

/-! ## Conversion-table fields (sql_type.cc, lines 291-644)

A field object is represented by the `new` expression that creates it: the class
and the constructor arguments in the order of the call. The allocation from
`table->in_use->mem_root` is taken to succeed. -/

/-- The part of `TABLE_SHARE` the code reads: `db.str` and `table_name.str`. -/
structure TABLE_SHARE where
  db : String
  table_name : String
  deriving DecidableEq, Repr

/-- The part of `TABLE` the code reads: the share `s`. -/
structure TABLE where
  s : TABLE_SHARE
  deriving DecidableEq, Repr

/-- The value list of an ENUM or SET column. -/
structure TYPELIB where
  type_names : List String
  deriving DecidableEq, Repr

/-- A `uchar *` value: `NULL`, a string literal cast to `uchar *` as written at
the call sites (a non-null pointer), or the address of a static array member of
a class (a non-null pointer). -/
inductive uchar_ptr where
  | NULL
  | string_literal (s : String)
  | static_array (name : String)
  deriving DecidableEq, Repr

/-- The enumeration `Field::utype`; the code passes `Field::NONE` only. -/
inductive utype where
  | NONE
  deriving DecidableEq, Repr

/-- The target field `const Field *target`, as far as the code reads it. -/
structure Target_field where
  /-- `target->table`. -/
  table : TABLE
  /-- `target->field_name`. -/
  field_name : String
  /-- `target->field_length`. -/
  field_length : Nat
  /-- `((Field_num*) target)->unsigned_flag`. -/
  unsigned_flag : Bool
  /-- `target->charset()`. -/
  charset : CHARSET_INFO
  /-- `target->decimals()`. -/
  decimals : Nat
  /-- `target->type()`. -/
  type : enum_field_types
  /-- `target->real_type()`. -/
  real_type : enum_field_types
  /-- `((const Field_enum*) target)->typelib`. -/
  typelib : TYPELIB
  /-- `((const Field_geom*) target)->geom_type`. -/
  geom_type : Nat
  /-- `((const Field_geom*) target)->srid`. -/
  srid : Nat
  deriving DecidableEq, Repr

/-- The macro `TMPNAME` (line 291). -/
def TMPNAME : String := ""

/-- Field objects created by the conversion-field functions below. The second
argument `len_arg` of each constructor is the maximum length of the field; in
`Field_new_decimal`, `dec_arg` is the number of decimals. The constructors
`new_Field_timestamp`, `new_Field_time` and `new_Field_datetime` stand for the
calls of the factory functions of these names (without the memory root). -/
inductive sql.Field where
  | Field_new_decimal (ptr_arg : uchar_ptr) (len_arg : Nat) (null_ptr_arg : uchar_ptr)
      (null_bit_arg : Nat) (unireg_check_arg : utype) (field_name_arg : String)
      (dec_arg : Nat) (zero_arg : Bool) (unsigned_arg : Bool)
  | Field_bit_as_char (ptr_arg : uchar_ptr) (len_arg : Nat) (null_ptr_arg : uchar_ptr)
      (null_bit_arg : Nat) (unireg_check_arg : utype) (field_name_arg : String)
  | Field_string (ptr_arg : uchar_ptr) (len_arg : Nat) (null_ptr_arg : uchar_ptr)
      (null_bit_arg : Nat) (unireg_check_arg : utype) (field_name_arg : String)
      (cs : CHARSET_INFO)
  | Field_tiny (ptr_arg : uchar_ptr) (len_arg : Nat) (null_ptr_arg : uchar_ptr)
      (null_bit_arg : Nat) (unireg_check_arg : utype) (field_name_arg : String)
      (zero_arg : Bool) (unsigned_arg : Bool)
  | Field_short (ptr_arg : uchar_ptr) (len_arg : Nat) (null_ptr_arg : uchar_ptr)
      (null_bit_arg : Nat) (unireg_check_arg : utype) (field_name_arg : String)
      (zero_arg : Bool) (unsigned_arg : Bool)
  | Field_medium (ptr_arg : uchar_ptr) (len_arg : Nat) (null_ptr_arg : uchar_ptr)
      (null_bit_arg : Nat) (unireg_check_arg : utype) (field_name_arg : String)
      (zero_arg : Bool) (unsigned_arg : Bool)
  | Field_long (ptr_arg : uchar_ptr) (len_arg : Nat) (null_ptr_arg : uchar_ptr)
      (null_bit_arg : Nat) (unireg_check_arg : utype) (field_name_arg : String)
      (zero_arg : Bool) (unsigned_arg : Bool)
  | Field_longlong (ptr_arg : uchar_ptr) (len_arg : Nat) (null_ptr_arg : uchar_ptr)
      (null_bit_arg : Nat) (unireg_check_arg : utype) (field_name_arg : String)
      (zero_arg : Bool) (unsigned_arg : Bool)
  | Field_float (ptr_arg : uchar_ptr) (len_arg : Nat) (null_ptr_arg : uchar_ptr)
      (null_bit_arg : Nat) (unireg_check_arg : utype) (field_name_arg : String)
      (dec_arg : Nat) (zero_arg : Bool) (unsigned_arg : Bool)
  | Field_double (ptr_arg : uchar_ptr) (len_arg : Nat) (null_ptr_arg : uchar_ptr)
      (null_bit_arg : Nat) (unireg_check_arg : utype) (field_name_arg : String)
      (dec_arg : Nat) (zero_arg : Bool) (unsigned_arg : Bool)
  | Field_year (ptr_arg : uchar_ptr) (len_arg : Nat) (null_ptr_arg : uchar_ptr)
      (null_bit_arg : Nat) (unireg_check_arg : utype) (field_name_arg : String)
  | Field_null (ptr_arg : uchar_ptr) (len_arg : Nat) (unireg_check_arg : utype)
      (field_name_arg : String) (cs : CHARSET_INFO)
  | new_Field_timestamp (ptr : uchar_ptr) (null_ptr : uchar_ptr) (null_bit : Nat)
      (unireg_check : utype) (field_name : String) (share : TABLE_SHARE) (dec : Nat)
  | Field_timestampf (ptr_arg : uchar_ptr) (null_ptr_arg : uchar_ptr) (null_bit_arg : Nat)
      (unireg_check_arg : utype) (field_name_arg : String) (share : TABLE_SHARE)
      (dec_arg : Nat)
  | Field_newdate (ptr_arg : uchar_ptr) (null_ptr_arg : uchar_ptr) (null_bit_arg : Nat)
      (unireg_check_arg : utype) (field_name_arg : String)
  | Field_date (ptr_arg : uchar_ptr) (null_ptr_arg : uchar_ptr) (null_bit_arg : Nat)
      (unireg_check_arg : utype) (field_name_arg : String)
  | new_Field_time (ptr : uchar_ptr) (null_ptr : uchar_ptr) (null_bit : Nat)
      (unireg_check : utype) (field_name : String) (dec : Nat)
  | Field_timef (ptr_arg : uchar_ptr) (null_ptr_arg : uchar_ptr) (null_bit_arg : Nat)
      (unireg_check_arg : utype) (field_name_arg : String) (dec_arg : Nat)
  | new_Field_datetime (ptr : uchar_ptr) (null_ptr : uchar_ptr) (null_bit : Nat)
      (unireg_check : utype) (field_name : String) (dec : Nat)
  | Field_datetimef (ptr_arg : uchar_ptr) (null_ptr_arg : uchar_ptr) (null_bit_arg : Nat)
      (unireg_check_arg : utype) (field_name_arg : String) (dec_arg : Nat)
  | Field_varstring (ptr_arg : uchar_ptr) (len_arg : Nat) (length_bytes_arg : Nat)
      (null_ptr_arg : uchar_ptr) (null_bit_arg : Nat) (unireg_check_arg : utype)
      (field_name_arg : String) (share : TABLE_SHARE) (cs : CHARSET_INFO)
  | Field_blob (ptr_arg : uchar_ptr) (null_ptr_arg : uchar_ptr) (null_bit_arg : Nat)
      (unireg_check_arg : utype) (field_name_arg : String) (share : TABLE_SHARE)
      (blob_pack_length : Nat) (cs : CHARSET_INFO)
  | Field_geom (ptr_arg : uchar_ptr) (null_ptr_arg : uchar_ptr) (null_bit_arg : Nat)
      (unireg_check_arg : utype) (field_name_arg : String) (share : TABLE_SHARE)
      (blob_pack_length : Nat) (geom_type_arg : Nat) (field_srid : Nat)
  | Field_enum (ptr_arg : uchar_ptr) (len_arg : Nat) (null_ptr_arg : uchar_ptr)
      (null_bit_arg : Nat) (unireg_check_arg : utype) (field_name_arg : String)
      (packlength_arg : Nat) (typelib_arg : TYPELIB) (charset_arg : CHARSET_INFO)
  | Field_set (ptr_arg : uchar_ptr) (len_arg : Nat) (null_ptr_arg : uchar_ptr)
      (null_bit_arg : Nat) (unireg_check_arg : utype) (field_name_arg : String)
      (packlength_arg : Nat) (typelib_arg : TYPELIB) (charset_arg : CHARSET_INFO)
  deriving DecidableEq, Repr

/-- Conversion of a value to `uint32`. -/
def to_uint32 (n : Nat) : Nat := n % 2 ^ 32

/-- `Type_handler_newdecimal::make_conversion_table_field` (lines 381-393).
The constant `DECIMAL_MAX_SCALE` and the function `my_decimal_precision_to_length`
are declared in headers that are not among the sources; both are parameters. -/
def Type_handler_newdecimal.make_conversion_table_field (cfg : Build)
    (DECIMAL_MAX_SCALE : Nat) (my_decimal_precision_to_length : Nat → Nat → Bool → Nat)
    (_table : TABLE) (metadata : Nat) (_target : Target_field) : Outcome (Option sql.Field) :=
  let precision := metadata >>> 8
  let decimals := metadata &&& 0x00ff
  let max_length := my_decimal_precision_to_length precision decimals false
  DBUG_ASSERT cfg (decide (decimals ≤ DECIMAL_MAX_SCALE))
    (.returns (some (.Field_new_decimal .NULL max_length (.string_literal "") 1 .NONE
      TMPNAME decimals false false)))

/-- The text `sql_print_error` writes for the format string and the three `%s`
arguments of lines 401-408. -/
def olddecimal_error_message (db table_name field_name : String) : String :=
  "In RBR mode, Slave received incompatible DECIMAL field " ++
  "(old-style decimal field) from Master while creating " ++
  "conversion table. Please consider changing datatype on " ++
  "Master to new style decimal by executing ALTER command for" ++
  " column Name: " ++ db ++ "." ++ table_name ++ "." ++ field_name ++ "."

/-- `Type_handler_olddecimal::make_conversion_table_field` (lines 396-410).
The error log is passed in and returned: `sql_print_error` appends one message. -/
def Type_handler_olddecimal.make_conversion_table_field (error_log : List String)
    (_table : TABLE) (_metadata : Nat) (target : Target_field) :
    List String × Option sql.Field :=
  (error_log ++ [olddecimal_error_message target.table.s.db target.table.s.table_name
      target.field_name],
    none)

/-- `Type_handler_bit::make_conversion_table_field` (lines 515-525). -/
def Type_handler_bit.make_conversion_table_field (cfg : Build)
    (_table : TABLE) (metadata : Nat) (_target : Target_field) : Outcome (Option sql.Field) :=
  DBUG_ASSERT cfg (decide ((metadata &&& 0xff) ≤ 7))
    (let max_length := to_uint32 (8 * (metadata >>> 8) + (metadata &&& 0x00ff))
     .returns (some (.Field_bit_as_char .NULL max_length (.string_literal "") 1 .NONE
       TMPNAME)))

/-- `Type_handler_string::make_conversion_table_field` (lines 528-538). -/
def Type_handler_string.make_conversion_table_field
    (_table : TABLE) (metadata : Nat) (target : Target_field) : Option sql.Field :=
  let max_length := to_uint32 ((((metadata >>> 4) &&& 0x300) ^^^ 0x300) + (metadata &&& 0x00ff))
  some (.Field_string .NULL max_length (.string_literal "") 1 .NONE TMPNAME target.charset)

/-- `Type_handler_tiny::make_conversion_table_field` (lines 293-307). -/
def Type_handler_tiny.make_conversion_table_field
    (_table : TABLE) (_metadata : Nat) (target : Target_field) : Option sql.Field :=
  let unsigned_flag := target.unsigned_flag
  some (.Field_tiny .NULL 4 (.string_literal "") 1 .NONE TMPNAME false unsigned_flag)

/-- `Type_handler_short::make_conversion_table_field` (lines 310-319). -/
def Type_handler_short.make_conversion_table_field
    (_table : TABLE) (_metadata : Nat) (target : Target_field) : Option sql.Field :=
  let unsigned_flag := target.unsigned_flag
  some (.Field_short .NULL 6 (.string_literal "") 1 .NONE TMPNAME false unsigned_flag)

/-- `Type_handler_int24::make_conversion_table_field` (lines 322-331). -/
def Type_handler_int24.make_conversion_table_field
    (_table : TABLE) (_metadata : Nat) (target : Target_field) : Option sql.Field :=
  let unsigned_flag := target.unsigned_flag
  some (.Field_medium .NULL 9 (.string_literal "") 1 .NONE TMPNAME false unsigned_flag)

/-- `Type_handler_long::make_conversion_table_field` (lines 334-343). -/
def Type_handler_long.make_conversion_table_field
    (_table : TABLE) (_metadata : Nat) (target : Target_field) : Option sql.Field :=
  let unsigned_flag := target.unsigned_flag
  some (.Field_long .NULL 11 (.string_literal "") 1 .NONE TMPNAME false unsigned_flag)

/-- `Type_handler_longlong::make_conversion_table_field` (lines 346-355). -/
def Type_handler_longlong.make_conversion_table_field
    (_table : TABLE) (_metadata : Nat) (target : Target_field) : Option sql.Field :=
  let unsigned_flag := target.unsigned_flag
  some (.Field_longlong .NULL 20 (.string_literal "") 1 .NONE TMPNAME false unsigned_flag)

/-- `Type_handler_float::make_conversion_table_field` (lines 359-367). -/
def Type_handler_float.make_conversion_table_field
    (_table : TABLE) (_metadata : Nat) (_target : Target_field) : Option sql.Field :=
  some (.Field_float .NULL 12 (.string_literal "") 1 .NONE TMPNAME 0 false false)

/-- `Type_handler_double::make_conversion_table_field` (lines 370-378). -/
def Type_handler_double.make_conversion_table_field
    (_table : TABLE) (_metadata : Nat) (_target : Target_field) : Option sql.Field :=
  some (.Field_double .NULL 22 (.string_literal "") 1 .NONE TMPNAME 0 false false)

/-- `Type_handler_year::make_conversion_table_field` (lines 413-420). -/
def Type_handler_year.make_conversion_table_field
    (_table : TABLE) (_metadata : Nat) (_target : Target_field) : Option sql.Field :=
  some (.Field_year .NULL 4 (.string_literal "") 1 .NONE TMPNAME)

/-- `Type_handler_null::make_conversion_table_field` (lines 423-430). -/
def Type_handler_null.make_conversion_table_field
    (_table : TABLE) (_metadata : Nat) (target : Target_field) : Option sql.Field :=
  some (.Field_null .NULL 0 .NONE TMPNAME target.charset)

/-- `Type_handler_timestamp::make_conversion_table_field` (lines 433-440). -/
def Type_handler_timestamp.make_conversion_table_field
    (table : TABLE) (_metadata : Nat) (target : Target_field) : Option sql.Field :=
  some (.new_Field_timestamp .NULL (.string_literal "") 1 .NONE TMPNAME table.s
    target.decimals)

/-- `Type_handler_timestamp2::make_conversion_table_field` (lines 443-451). -/
def Type_handler_timestamp2.make_conversion_table_field
    (table : TABLE) (metadata : Nat) (_target : Target_field) : Option sql.Field :=
  some (.Field_timestampf .NULL (.string_literal "") 1 .NONE TMPNAME table.s metadata)

/-- `Type_handler_newdate::make_conversion_table_field` (lines 454-461). -/
def Type_handler_newdate.make_conversion_table_field
    (_table : TABLE) (_metadata : Nat) (_target : Target_field) : Option sql.Field :=
  some (.Field_newdate .NULL (.string_literal "") 1 .NONE TMPNAME)

/-- `Type_handler_date::make_conversion_table_field` (lines 464-471). -/
def Type_handler_date.make_conversion_table_field
    (_table : TABLE) (_metadata : Nat) (_target : Target_field) : Option sql.Field :=
  some (.Field_date .NULL (.string_literal "") 1 .NONE TMPNAME)

/-- `Type_handler_time::make_conversion_table_field` (lines 474-481). -/
def Type_handler_time.make_conversion_table_field
    (_table : TABLE) (_metadata : Nat) (target : Target_field) : Option sql.Field :=
  some (.new_Field_time .NULL (.string_literal "") 1 .NONE TMPNAME target.decimals)

/-- `Type_handler_time2::make_conversion_table_field` (lines 484-491). -/
def Type_handler_time2.make_conversion_table_field
    (_table : TABLE) (metadata : Nat) (_target : Target_field) : Option sql.Field :=
  some (.Field_timef .NULL (.string_literal "") 1 .NONE TMPNAME metadata)

/-- `Type_handler_datetime::make_conversion_table_field` (lines 494-501). -/
def Type_handler_datetime.make_conversion_table_field
    (_table : TABLE) (_metadata : Nat) (target : Target_field) : Option sql.Field :=
  some (.new_Field_datetime .NULL (.string_literal "") 1 .NONE TMPNAME target.decimals)

/-- `Type_handler_datetime2::make_conversion_table_field` (lines 504-512). -/
def Type_handler_datetime2.make_conversion_table_field
    (_table : TABLE) (metadata : Nat) (_target : Target_field) : Option sql.Field :=
  some (.Field_datetimef .NULL (.string_literal "") 1 .NONE TMPNAME metadata)

/-- `Type_handler_varchar::make_conversion_table_field` (lines 541-550). The
macro `HA_VARCHAR_PACKLENGTH` is defined in a header that is not among the
sources; it is a parameter. -/
def Type_handler_varchar.make_conversion_table_field
    (HA_VARCHAR_PACKLENGTH : Nat → Nat)
    (table : TABLE) (metadata : Nat) (target : Target_field) : Option sql.Field :=
  some (.Field_varstring .NULL metadata (HA_VARCHAR_PACKLENGTH metadata)
    (.string_literal "") 1 .NONE TMPNAME table.s target.charset)

/-- `Type_handler_tiny_blob::make_conversion_table_field` (lines 553-561). -/
def Type_handler_tiny_blob.make_conversion_table_field
    (table : TABLE) (_metadata : Nat) (target : Target_field) : Option sql.Field :=
  some (.Field_blob .NULL (.string_literal "") 1 .NONE TMPNAME table.s 1 target.charset)

/-- `Type_handler_blob::make_conversion_table_field` (lines 564-572). -/
def Type_handler_blob.make_conversion_table_field
    (table : TABLE) (_metadata : Nat) (target : Target_field) : Option sql.Field :=
  some (.Field_blob .NULL (.string_literal "") 1 .NONE TMPNAME table.s 2 target.charset)

/-- `Type_handler_medium_blob::make_conversion_table_field` (lines 575-583). -/
def Type_handler_medium_blob.make_conversion_table_field
    (table : TABLE) (_metadata : Nat) (target : Target_field) : Option sql.Field :=
  some (.Field_blob .NULL (.string_literal "") 1 .NONE TMPNAME table.s 3 target.charset)

/-- `Type_handler_long_blob::make_conversion_table_field` (lines 586-594). -/
def Type_handler_long_blob.make_conversion_table_field
    (table : TABLE) (_metadata : Nat) (target : Target_field) : Option sql.Field :=
  some (.Field_blob .NULL (.string_literal "") 1 .NONE TMPNAME table.s 4 target.charset)

/-- `Type_handler_geometry::make_conversion_table_field` (lines 598-614), which
exists under `HAVE_SPATIAL` only. -/
def Type_handler_geometry.make_conversion_table_field (cfg : Build)
    (table : TABLE) (_metadata : Nat) (target : Target_field) : Outcome (Option sql.Field) :=
  DBUG_ASSERT cfg (decide (target.type = MYSQL_TYPE_GEOMETRY))
    (.returns (some (.Field_geom .NULL (.string_literal "") 1 .NONE TMPNAME table.s 4
      target.geom_type target.srid)))

/-- `Type_handler_enum::make_conversion_table_field` (lines 617-629). -/
def Type_handler_enum.make_conversion_table_field (cfg : Build)
    (_table : TABLE) (metadata : Nat) (target : Target_field) : Outcome (Option sql.Field) :=
  DBUG_ASSERT cfg (decide (target.type = MYSQL_TYPE_STRING))
    (DBUG_ASSERT cfg (decide (target.real_type = MYSQL_TYPE_ENUM))
      (.returns (some (.Field_enum .NULL target.field_length (.string_literal "") 1 .NONE
        TMPNAME (metadata &&& 0x00ff) target.typelib target.charset))))

/-- `Type_handler_set::make_conversion_table_field` (lines 632-644). -/
def Type_handler_set.make_conversion_table_field (cfg : Build)
    (_table : TABLE) (metadata : Nat) (target : Target_field) : Outcome (Option sql.Field) :=
  DBUG_ASSERT cfg (decide (target.type = MYSQL_TYPE_STRING))
    (DBUG_ASSERT cfg (decide (target.real_type = MYSQL_TYPE_SET))
      (.returns (some (.Field_set .NULL target.field_length (.string_literal "") 1 .NONE
        TMPNAME (metadata &&& 0x00ff) target.typelib target.charset))))

/-- The virtual call `handler->make_conversion_table_field(table, metadata,
target)`, dispatched to the definition of the handler's class in sql_type.cc.
The geometry handler exists under `HAVE_SPATIAL` only. The definition for the row
handler is not in sql_type.cc; no field is taken to come from it. The error log
of the OLDDECIMAL case is left out here. -/
def Type_handler.make_conversion_table_field (cfg : Build) (DECIMAL_MAX_SCALE : Nat)
    (my_decimal_precision_to_length : Nat → Nat → Bool → Nat)
    (HA_VARCHAR_PACKLENGTH : Nat → Nat) (handler : Type_handler)
    (table : TABLE) (metadata : Nat) (target : Target_field) : Outcome (Option sql.Field) :=
  match handler with
  | type_handler_tiny =>
    .returns (Type_handler_tiny.make_conversion_table_field table metadata target)
  | type_handler_short =>
    .returns (Type_handler_short.make_conversion_table_field table metadata target)
  | type_handler_int24 =>
    .returns (Type_handler_int24.make_conversion_table_field table metadata target)
  | type_handler_long =>
    .returns (Type_handler_long.make_conversion_table_field table metadata target)
  | type_handler_longlong =>
    .returns (Type_handler_longlong.make_conversion_table_field table metadata target)
  | type_handler_float =>
    .returns (Type_handler_float.make_conversion_table_field table metadata target)
  | type_handler_double =>
    .returns (Type_handler_double.make_conversion_table_field table metadata target)
  | type_handler_newdecimal =>
    Type_handler_newdecimal.make_conversion_table_field cfg DECIMAL_MAX_SCALE
      my_decimal_precision_to_length table metadata target
  | type_handler_olddecimal =>
    .returns (Type_handler_olddecimal.make_conversion_table_field [] table metadata target).2
  | type_handler_year =>
    .returns (Type_handler_year.make_conversion_table_field table metadata target)
  | type_handler_null =>
    .returns (Type_handler_null.make_conversion_table_field table metadata target)
  | type_handler_timestamp =>
    .returns (Type_handler_timestamp.make_conversion_table_field table metadata target)
  | type_handler_timestamp2 =>
    .returns (Type_handler_timestamp2.make_conversion_table_field table metadata target)
  | type_handler_newdate =>
    .returns (Type_handler_newdate.make_conversion_table_field table metadata target)
  | type_handler_date =>
    .returns (Type_handler_date.make_conversion_table_field table metadata target)
  | type_handler_time =>
    .returns (Type_handler_time.make_conversion_table_field table metadata target)
  | type_handler_time2 =>
    .returns (Type_handler_time2.make_conversion_table_field table metadata target)
  | type_handler_datetime =>
    .returns (Type_handler_datetime.make_conversion_table_field table metadata target)
  | type_handler_datetime2 =>
    .returns (Type_handler_datetime2.make_conversion_table_field table metadata target)
  | type_handler_bit =>
    Type_handler_bit.make_conversion_table_field cfg table metadata target
  | type_handler_string =>
    .returns (Type_handler_string.make_conversion_table_field table metadata target)
  | type_handler_varchar =>
    .returns (Type_handler_varchar.make_conversion_table_field HA_VARCHAR_PACKLENGTH
      table metadata target)
  | type_handler_tiny_blob =>
    .returns (Type_handler_tiny_blob.make_conversion_table_field table metadata target)
  | type_handler_blob =>
    .returns (Type_handler_blob.make_conversion_table_field table metadata target)
  | type_handler_medium_blob =>
    .returns (Type_handler_medium_blob.make_conversion_table_field table metadata target)
  | type_handler_long_blob =>
    .returns (Type_handler_long_blob.make_conversion_table_field table metadata target)
  | type_handler_geometry =>
    if cfg.HAVE_SPATIAL then
      Type_handler_geometry.make_conversion_table_field cfg table metadata target
    else .returns none
  | type_handler_enum =>
    Type_handler_enum.make_conversion_table_field cfg table metadata target
  | type_handler_set =>
    Type_handler_set.make_conversion_table_field cfg table metadata target
  | type_handler_row => .returns none

/-- The name of a field: the `field_name` argument of its constructor. -/
def sql.Field.field_name : sql.Field → String
  | .Field_new_decimal _ _ _ _ _ n _ _ _ => n
  | .Field_bit_as_char _ _ _ _ _ n => n
  | .Field_string _ _ _ _ _ n _ => n
  | .Field_tiny _ _ _ _ _ n _ _ => n
  | .Field_short _ _ _ _ _ n _ _ => n
  | .Field_medium _ _ _ _ _ n _ _ => n
  | .Field_long _ _ _ _ _ n _ _ => n
  | .Field_longlong _ _ _ _ _ n _ _ => n
  | .Field_float _ _ _ _ _ n _ _ _ => n
  | .Field_double _ _ _ _ _ n _ _ _ => n
  | .Field_year _ _ _ _ _ n => n
  | .Field_null _ _ _ n _ => n
  | .new_Field_timestamp _ _ _ _ n _ _ => n
  | .Field_timestampf _ _ _ _ n _ _ => n
  | .Field_newdate _ _ _ _ n => n
  | .Field_date _ _ _ _ n => n
  | .new_Field_time _ _ _ _ n _ => n
  | .Field_timef _ _ _ _ n _ => n
  | .new_Field_datetime _ _ _ _ n _ => n
  | .Field_datetimef _ _ _ _ n _ => n
  | .Field_varstring _ _ _ _ _ _ n _ _ => n
  | .Field_blob _ _ _ _ n _ _ _ => n
  | .Field_geom _ _ _ _ n _ _ _ _ => n
  | .Field_enum _ _ _ _ _ n _ _ _ => n
  | .Field_set _ _ _ _ _ n _ _ _ => n

/-- The data pointer of a field: the `ptr` argument of its constructor. -/
def sql.Field.ptr : sql.Field → uchar_ptr
  | .Field_new_decimal p _ _ _ _ _ _ _ _ => p
  | .Field_bit_as_char p _ _ _ _ _ => p
  | .Field_string p _ _ _ _ _ _ => p
  | .Field_tiny p _ _ _ _ _ _ _ => p
  | .Field_short p _ _ _ _ _ _ _ => p
  | .Field_medium p _ _ _ _ _ _ _ => p
  | .Field_long p _ _ _ _ _ _ _ => p
  | .Field_longlong p _ _ _ _ _ _ _ => p
  | .Field_float p _ _ _ _ _ _ _ _ => p
  | .Field_double p _ _ _ _ _ _ _ _ => p
  | .Field_year p _ _ _ _ _ => p
  | .Field_null p _ _ _ _ => p
  | .new_Field_timestamp p _ _ _ _ _ _ => p
  | .Field_timestampf p _ _ _ _ _ _ => p
  | .Field_newdate p _ _ _ _ => p
  | .Field_date p _ _ _ _ => p
  | .new_Field_time p _ _ _ _ _ => p
  | .Field_timef p _ _ _ _ _ => p
  | .new_Field_datetime p _ _ _ _ _ => p
  | .Field_datetimef p _ _ _ _ _ => p
  | .Field_varstring p _ _ _ _ _ _ _ _ => p
  | .Field_blob p _ _ _ _ _ _ _ => p
  | .Field_geom p _ _ _ _ _ _ _ _ => p
  | .Field_enum p _ _ _ _ _ _ _ _ => p
  | .Field_set p _ _ _ _ _ _ _ _ => p

/-- Modelled from the spec: the null indicator `Field_null` gives itself. The
call of line 429 passes no null pointer and no null bit; the constructor of
`Field_null` (field.h, not among the sources) supplies them. By the spec every
produced field carries a synthetic non-null default: the pointer is the address
of a static array of the class and the null bit is 1. -/
def Field_null_null_indicator : uchar_ptr × Nat :=
  (.static_array "Field_null::null", 1)

/-- The null-indicator pointer of a field: the `null_ptr` argument of its
constructor, and for `Field_null` the pointer its constructor supplies. -/
def sql.Field.null_ptr : sql.Field → uchar_ptr
  | .Field_new_decimal _ _ q _ _ _ _ _ _ => q
  | .Field_bit_as_char _ _ q _ _ _ => q
  | .Field_string _ _ q _ _ _ _ => q
  | .Field_tiny _ _ q _ _ _ _ _ => q
  | .Field_short _ _ q _ _ _ _ _ => q
  | .Field_medium _ _ q _ _ _ _ _ => q
  | .Field_long _ _ q _ _ _ _ _ => q
  | .Field_longlong _ _ q _ _ _ _ _ => q
  | .Field_float _ _ q _ _ _ _ _ _ => q
  | .Field_double _ _ q _ _ _ _ _ _ => q
  | .Field_year _ _ q _ _ _ => q
  | .Field_null _ _ _ _ _ => Field_null_null_indicator.1
  | .new_Field_timestamp _ q _ _ _ _ _ => q
  | .Field_timestampf _ q _ _ _ _ _ => q
  | .Field_newdate _ q _ _ _ => q
  | .Field_date _ q _ _ _ => q
  | .new_Field_time _ q _ _ _ _ => q
  | .Field_timef _ q _ _ _ _ => q
  | .new_Field_datetime _ q _ _ _ _ => q
  | .Field_datetimef _ q _ _ _ _ => q
  | .Field_varstring _ _ _ q _ _ _ _ _ => q
  | .Field_blob _ q _ _ _ _ _ _ => q
  | .Field_geom _ q _ _ _ _ _ _ _ => q
  | .Field_enum _ _ q _ _ _ _ _ _ => q
  | .Field_set _ _ q _ _ _ _ _ _ => q

/-- The null bit of a field: the `null_bit` argument of its constructor, and for
`Field_null` the bit its constructor supplies. -/
def sql.Field.null_bit : sql.Field → Nat
  | .Field_new_decimal _ _ _ b _ _ _ _ _ => b
  | .Field_bit_as_char _ _ _ b _ _ => b
  | .Field_string _ _ _ b _ _ _ => b
  | .Field_tiny _ _ _ b _ _ _ _ => b
  | .Field_short _ _ _ b _ _ _ _ => b
  | .Field_medium _ _ _ b _ _ _ _ => b
  | .Field_long _ _ _ b _ _ _ _ => b
  | .Field_longlong _ _ _ b _ _ _ _ => b
  | .Field_float _ _ _ b _ _ _ _ _ => b
  | .Field_double _ _ _ b _ _ _ _ _ => b
  | .Field_year _ _ _ b _ _ => b
  | .Field_null _ _ _ _ _ => Field_null_null_indicator.2
  | .new_Field_timestamp _ _ b _ _ _ _ => b
  | .Field_timestampf _ _ b _ _ _ _ => b
  | .Field_newdate _ _ b _ _ => b
  | .Field_date _ _ b _ _ => b
  | .new_Field_time _ _ b _ _ _ => b
  | .Field_timef _ _ b _ _ _ => b
  | .new_Field_datetime _ _ b _ _ _ => b
  | .Field_datetimef _ _ b _ _ _ => b
  | .Field_varstring _ _ _ _ b _ _ _ _ => b
  | .Field_blob _ _ b _ _ _ _ _ => b
  | .Field_geom _ _ b _ _ _ _ _ _ => b
  | .Field_enum _ _ _ b _ _ _ _ _ => b
  | .Field_set _ _ _ b _ _ _ _ _ => b

/-- The packing of a CHAR length into metadata as claim C28 words it: the type
byte, with the length bits 8-9 folded in by XOR, in the high byte and the low
byte of the length in the low byte. -/
def spec_string_metadata_pack (type_byte field_length : Nat) : Nat :=
  ((type_byte ^^^ ((field_length &&& 0x300) >>> 4)) <<< 8) ||| (field_length &&& 0xFF)

/-! ## Type resolution of MIN/MAX aggregates (sql_type.cc, lines 764-845) -/

/-- Sequencing of two steps, the second of which uses the value the first returns. -/
def Outcome.bind {α β : Type} (x : Outcome α) (f : α → Outcome β) : Outcome β :=
  match x with
  | .returns v => f v
  | .assert_failed => .assert_failed
  | .undefined_behaviour => .undefined_behaviour

/-- The part of `DTCollation` the code reads: the character set `collation`. -/
structure DTCollation where
  collation : CHARSET_INFO
  derivation : Nat
  deriving DecidableEq, Repr

/-- The class `Type_std_attributes`: collation, decimals, maximum length and
signedness of an expression. -/
structure Type_std_attributes where
  collation : DTCollation
  decimals : Nat
  max_length : Nat
  unsigned_flag : Bool
  deriving DecidableEq, Repr

/-- The enumeration `Item::Type`, as far as the code distinguishes it:
`Item::FIELD_ITEM` (a column reference) or any other kind of item. -/
inductive Item_Type where
  | FIELD_ITEM
  | other
  deriving DecidableEq, Repr

/-- What the code reads of `item->real_item()`: its `type()` and `field_type()`. -/
structure Real_item where
  type : Item_Type
  field_type : enum_field_types
  deriving DecidableEq, Repr

/-- An `Item`, as far as the code reads it: its standard attributes, its
nullability, `field_type()`, `type_handler()` and `real_item()`. -/
structure Item extends Type_std_attributes where
  maybe_null : Bool
  field_type : enum_field_types
  type_handler : Type_handler
  real_item : Real_item
  deriving DecidableEq, Repr

/-- An `Item_sum_hybrid` (MIN or MAX), as far as the code reads and writes it:
the argument `arguments()[0]`, its own standard attributes, `maybe_null`,
`null_value` and the handler pointer `m_type_handler`. -/
structure Item_sum_hybrid extends Type_std_attributes where
  argument : Item
  maybe_null : Bool
  null_value : Bool
  m_type_handler : Option Type_handler
  deriving DecidableEq, Repr

/-- Modelled from the spec: `Type_std_attributes::set`, declared in sql_type.h,
which is not among the sources. The aggregate takes over the argument's
collation, decimals, maximum length and signedness. -/
def Item_sum_hybrid.set (func : Item_sum_hybrid) (item : Item) : Item_sum_hybrid :=
  { func with toType_std_attributes := item.toType_std_attributes }

/-- Modelled from the spec: `set_handler`, declared in sql_type.h, which is not
among the sources. The aggregate adopts the given handler. -/
def Item_sum_hybrid.set_handler (func : Item_sum_hybrid) (handler : Type_handler) :
    Item_sum_hybrid :=
  { func with m_type_handler := some handler }

/-- Modelled from the spec: `set_handler_by_field_type`, declared in sql_type.h,
which is not among the sources. The aggregate adopts the handler that
`get_handler_by_field_type` returns for the given field type code. -/
def Item_sum_hybrid.set_handler_by_field_type (cfg : Build) (func : Item_sum_hybrid)
    (type : enum_field_types) : Outcome Item_sum_hybrid :=
  (Type_handler.get_handler_by_field_type cfg (.enumerator type)).bind
    fun h => .returns { func with m_type_handler := h }

/-- `Type_handler_numeric::Item_sum_hybrid_fix_length_and_dec_numeric`
(lines 773-788). The result is the aggregate after the call and the returned
flag. -/
def Type_handler_numeric.Item_sum_hybrid_fix_length_and_dec_numeric (cfg : Build)
    (func : Item_sum_hybrid) (handler : Type_handler) : Outcome (Item_sum_hybrid × Bool) :=
  let item := func.argument
  let item2 := item.real_item
  let func := func.set item
  let func := { func with maybe_null := true, null_value := true }
  if item2.type = Item_Type.FIELD_ITEM then
    (func.set_handler_by_field_type cfg item2.field_type).bind
      fun func => .returns (func, false)
  else
    .returns (func.set_handler handler, false)

/-- `Type_handler_int_result::Item_sum_hybrid_fix_length_and_dec` (lines 791-796). -/
def Type_handler_int_result.Item_sum_hybrid_fix_length_and_dec (cfg : Build)
    (func : Item_sum_hybrid) : Outcome (Item_sum_hybrid × Bool) :=
  Type_handler_numeric.Item_sum_hybrid_fix_length_and_dec_numeric cfg func
    type_handler_longlong

/-- `Type_handler_real_result::Item_sum_hybrid_fix_length_and_dec` (lines 799-806).
The method `float_length` of the aggregate is declared in a header that is not
among the sources; it is a parameter. -/
def Type_handler_real_result.Item_sum_hybrid_fix_length_and_dec (cfg : Build)
    (float_length : Item_sum_hybrid → Nat → Nat)
    (func : Item_sum_hybrid) : Outcome (Item_sum_hybrid × Bool) :=
  (Type_handler_numeric.Item_sum_hybrid_fix_length_and_dec_numeric cfg func
      type_handler_double).bind
    fun r =>
      let func := r.1
      .returns ({ func with max_length := float_length func func.decimals }, false)

/-- `Type_handler_decimal_result::Item_sum_hybrid_fix_length_and_dec`
(lines 809-814). -/
def Type_handler_decimal_result.Item_sum_hybrid_fix_length_and_dec (cfg : Build)
    (func : Item_sum_hybrid) : Outcome (Item_sum_hybrid × Bool) :=
  Type_handler_numeric.Item_sum_hybrid_fix_length_and_dec_numeric cfg func
    type_handler_newdecimal

/-- `Type_handler_string_result::Item_sum_hybrid_fix_length_and_dec`
(lines 825-845). -/
def Type_handler_string_result.Item_sum_hybrid_fix_length_and_dec (cfg : Build)
    (CONVERT_IF_BIGGER_TO_BLOB : Nat)
    (func : Item_sum_hybrid) : Outcome (Item_sum_hybrid × Bool) :=
  let item := func.argument
  let item2 := item.real_item
  let func := func.set item
  let func := { func with maybe_null := true, null_value := true }
  if item2.type = Item_Type.FIELD_ITEM then
    (func.set_handler_by_field_type cfg item.field_type).bind
      fun func => .returns (func, false)
  else
    (Type_handler_string_result.type_handler_adjusted_to_max_octet_length
        CONVERT_IF_BIGGER_TO_BLOB func.max_length func.collation.collation).bind
      fun handler => .returns (func.set_handler handler, false)

/-- `Type_handler_temporal_result::Item_sum_hybrid_fix_length_and_dec`
(lines 851-859). -/
def Type_handler_temporal_result.Item_sum_hybrid_fix_length_and_dec
    (func : Item_sum_hybrid) : Item_sum_hybrid × Bool :=
  let item := func.argument
  let func := func.set item
  let func := { func with maybe_null := true, null_value := true }
  (func.set_handler item.type_handler, false)

/-! ## Choice of the comparator (sql_type.cc, lines 693-721) -/

/-- The installers of `Arg_comparator` that the code calls. They are declared in
a header that is not among the sources and are parameters: each takes the
comparator (of state type `σ`) to its state after the call and the flag it
returns. -/
structure Arg_comparator (σ : Type) where
  set_cmp_func_row : σ → σ × Bool
  set_cmp_func_int : σ → σ × Bool
  set_cmp_func_real : σ → σ × Bool
  set_cmp_func_decimal : σ → σ × Bool
  set_cmp_func_string : σ → σ × Bool
  set_cmp_func_temporal : σ → σ × Bool

/-- `Type_handler_row::set_comparator_func` (lines 693-696). -/
def Type_handler_row.set_comparator_func {σ : Type} (methods : Arg_comparator σ)
    (cmp : σ) : σ × Bool :=
  methods.set_cmp_func_row cmp

/-- `Type_handler_int_result::set_comparator_func` (lines 698-701). -/
def Type_handler_int_result.set_comparator_func {σ : Type} (methods : Arg_comparator σ)
    (cmp : σ) : σ × Bool :=
  methods.set_cmp_func_int cmp

/-- `Type_handler_real_result::set_comparator_func` (lines 703-706). -/
def Type_handler_real_result.set_comparator_func {σ : Type} (methods : Arg_comparator σ)
    (cmp : σ) : σ × Bool :=
  methods.set_cmp_func_real cmp

/-- `Type_handler_decimal_result::set_comparator_func` (lines 708-711). -/
def Type_handler_decimal_result.set_comparator_func {σ : Type}
    (methods : Arg_comparator σ) (cmp : σ) : σ × Bool :=
  methods.set_cmp_func_decimal cmp

/-- `Type_handler_string_result::set_comparator_func` (lines 713-716). -/
def Type_handler_string_result.set_comparator_func {σ : Type}
    (methods : Arg_comparator σ) (cmp : σ) : σ × Bool :=
  methods.set_cmp_func_string cmp

/-- `Type_handler_temporal_result::set_comparator_func` (lines 718-721). -/
def Type_handler_temporal_result.set_comparator_func {σ : Type}
    (methods : Arg_comparator σ) (cmp : σ) : σ × Bool :=
  methods.set_cmp_func_temporal cmp

/-- Modelled from the spec: the virtual call `handler->set_comparator_func(cmp)`.
Which class a handler singleton belongs to is declared in sql_type.h, which is
not among the sources; by the spec a handler has the behaviour of its comparison
category, so the call goes to the definition of the result class of
`handler.cmp_type` (the row class for ROW). -/
def Type_handler.set_comparator_func {σ : Type} (handler : Type_handler)
    (methods : Arg_comparator σ) (cmp : σ) : σ × Bool :=
  match handler.cmp_type with
  | ROW_RESULT => Type_handler_row.set_comparator_func methods cmp
  | INT_RESULT => Type_handler_int_result.set_comparator_func methods cmp
  | REAL_RESULT => Type_handler_real_result.set_comparator_func methods cmp
  | DECIMAL_RESULT => Type_handler_decimal_result.set_comparator_func methods cmp
  | STRING_RESULT => Type_handler_string_result.set_comparator_func methods cmp
  | TIME_RESULT => Type_handler_temporal_result.set_comparator_func methods cmp

/-- The comparison strategy the specification names for a category: the
installer of that category. -/
def spec_comparator_of_category {σ : Type} (methods : Arg_comparator σ) :
    Item_result → σ → σ × Bool
  | INT_RESULT => methods.set_cmp_func_int
  | REAL_RESULT => methods.set_cmp_func_real
  | DECIMAL_RESULT => methods.set_cmp_func_decimal
  | STRING_RESULT => methods.set_cmp_func_string
  | TIME_RESULT => methods.set_cmp_func_temporal
  | ROW_RESULT => methods.set_cmp_func_row

/-! ## Concrete inputs used in examples -/

/-- A debug build with spatial support. -/
def debug_build : Build := ⟨true, true⟩

/-- A build with assertions compiled out, with spatial support. -/
def release_build : Build := ⟨true, false⟩

/-- A build with assertions compiled out and without spatial support. -/
def release_build_no_spatial : Build := ⟨false, false⟩

/-- A single-byte character set (number 8, one byte per character). -/
def cs_single_byte : CHARSET_INFO := ⟨8, 1⟩

/-- A multi-byte character set (number 33, up to three bytes per character). -/
def cs_three_byte : CHARSET_INFO := ⟨33, 3⟩

/-- A table `test.t1`. -/
def sample_table : TABLE := ⟨⟨"test", "t1"⟩⟩

/-- A signed target column `c1` of the table `test.t1` in a single-byte
character set. -/
def sample_target : Target_field :=
  { table := sample_table, field_name := "c1", field_length := 10,
    unsigned_flag := false, charset := cs_single_byte, decimals := 2,
    type := MYSQL_TYPE_NEWDECIMAL, real_type := MYSQL_TYPE_NEWDECIMAL,
    typelib := ⟨[]⟩, geom_type := 0, srid := 0 }

/-- A decimal length function used as a concrete input: the digits, one more
position for the decimal point if the scale is positive, and one more for the
sign of a signed non-empty number. -/
def sample_decimal_length (precision scale : Nat) (unsigned_flag : Bool) : Nat :=
  precision + (if scale > 0 then 1 else 0) +
    (if unsigned_flag || precision == 0 then 0 else 1)

/-- A float length function used as a concrete input. -/
def sample_float_length (_func : Item_sum_hybrid) (decimals : Nat) : Nat :=
  if decimals < 31 then 17 + decimals else 23

/-- Standard attributes used in the sample items: the given maximum length in
the given character set, no decimals, signed. -/
def sample_attributes (max_length : Nat) (cs : CHARSET_INFO) : Type_std_attributes :=
  { collation := ⟨cs, 2⟩, decimals := 0, max_length := max_length, unsigned_flag := false }

/-- A direct reference to a FLOAT column. -/
def float_column : Item :=
  { toType_std_attributes := sample_attributes 12 cs_single_byte, maybe_null := true,
    field_type := MYSQL_TYPE_FLOAT, type_handler := type_handler_float,
    real_item := ⟨Item_Type.FIELD_ITEM, MYSQL_TYPE_FLOAT⟩ }

/-- A computed integer expression whose own declared type is SMALLINT. -/
def smallint_expression : Item :=
  { toType_std_attributes := sample_attributes 6 cs_single_byte, maybe_null := false,
    field_type := MYSQL_TYPE_SHORT, type_handler := type_handler_short,
    real_item := ⟨Item_Type.other, MYSQL_TYPE_SHORT⟩ }

/-- A direct reference to an ENUM column: its field type is MYSQL_TYPE_STRING. -/
def enum_column : Item :=
  { toType_std_attributes := sample_attributes 5 cs_single_byte, maybe_null := true,
    field_type := MYSQL_TYPE_STRING, type_handler := type_handler_string,
    real_item := ⟨Item_Type.FIELD_ITEM, MYSQL_TYPE_STRING⟩ }

/-- A computed string expression of at most 70000 octets in a single-byte
character set. -/
def long_string_expression : Item :=
  { toType_std_attributes := sample_attributes 70000 cs_single_byte, maybe_null := false,
    field_type := MYSQL_TYPE_VARCHAR, type_handler := type_handler_varchar,
    real_item := ⟨Item_Type.other, MYSQL_TYPE_VARCHAR⟩ }

/-- A MIN/MAX aggregate over `item` before its type is resolved: not nullable,
and with the handler the constructor of `Type_handler_hybrid_field_type`
(lines 120-123) installs, the DOUBLE handler. -/
def sample_aggregate (item : Item) : Item_sum_hybrid :=
  { toType_std_attributes := sample_attributes 0 cs_single_byte, argument := item,
    maybe_null := false, null_value := false, m_type_handler := some type_handler_double }

/-- A direct reference to a column of the legacy TIMESTAMP type. -/
def legacy_timestamp_column : Item :=
  { toType_std_attributes := sample_attributes 19 cs_single_byte, maybe_null := false,
    field_type := MYSQL_TYPE_TIMESTAMP, type_handler := type_handler_timestamp,
    real_item := ⟨Item_Type.FIELD_ITEM, MYSQL_TYPE_TIMESTAMP⟩ }

/-- An ENUM target column with three values, of field length 5. -/
def sample_enum_target : Target_field :=
  { table := sample_table, field_name := "e1", field_length := 5,
    unsigned_flag := false, charset := cs_single_byte, decimals := 0,
    type := MYSQL_TYPE_STRING, real_type := MYSQL_TYPE_ENUM,
    typelib := ⟨["small", "mid", "large"]⟩, geom_type := 0, srid := 0 }

/-- A SET target column with two values, of field length 3. -/
def sample_set_target : Target_field :=
  { table := sample_table, field_name := "s1", field_length := 3,
    unsigned_flag := false, charset := cs_single_byte, decimals := 0,
    type := MYSQL_TYPE_STRING, real_type := MYSQL_TYPE_SET,
    typelib := ⟨["a", "b"]⟩, geom_type := 0, srid := 0 }

/-- A length-byte count used as a concrete input for `HA_VARCHAR_PACKLENGTH`:
one byte below 256, two bytes otherwise. -/
def sample_varchar_packlength (field_length : Nat) : Nat :=
  if field_length < 256 then 1 else 2

/-- A comparator used as a concrete input: its state is the list of categories
whose installer was called, latest last; every installer succeeds except the
one for rows. -/
def recording_comparator : Arg_comparator (List Item_result) :=
  { set_cmp_func_row := fun st => (st ++ [ROW_RESULT], false),
    set_cmp_func_int := fun st => (st ++ [INT_RESULT], true),
    set_cmp_func_real := fun st => (st ++ [REAL_RESULT], true),
    set_cmp_func_decimal := fun st => (st ++ [DECIMAL_RESULT], true),
    set_cmp_func_string := fun st => (st ++ [STRING_RESULT], true),
    set_cmp_func_temporal := fun st => (st ++ [TIME_RESULT], true) }

/-! ## Claim C1 -/

/-- Claim C1: for every `max_octet_length` n, `string_type_handler n` is the
VARCHAR handler when n < 65536, the MEDIUM_BLOB handler when
65536 ≤ n < 16777216 and the LONG_BLOB handler when n ≥ 16777216; in particular
65535 gives VARCHAR and 65536 gives MEDIUM_BLOB. -/
theorem string_type_handler_thresholds :
    (∀ n : Nat, Type_handler.string_type_handler n =
        if n < 65536 then type_handler_varchar
        else if n < 16777216 then type_handler_medium_blob
        else type_handler_long_blob) ∧
    Type_handler.string_type_handler 65535 = type_handler_varchar ∧
    Type_handler.string_type_handler 65536 = type_handler_medium_blob := by
  refine ⟨fun n => ?_, by decide, by decide⟩
  unfold Type_handler.string_type_handler
  split_ifs <;> first | rfl | omega

/-! ## Claims C2 and C3 -/

/-- Claim C2, as stated, fails: with the threshold at 512, an octet length of 512
in a single-byte character set has quotient 512, which is not strictly below the
threshold, and yet the VARCHAR handler is returned (no BLOB-family handler). -/
theorem adjusted_varchar_at_quotient_equal_threshold :
    1 ≤ cs_single_byte.mbmaxlen ∧
    ¬ (512 / cs_single_byte.mbmaxlen < 512) ∧
    Type_handler_string_result.type_handler_adjusted_to_max_octet_length 512 512
      cs_single_byte = Outcome.returns type_handler_varchar := by
  decide

/-- Claim C2 (amended): for every threshold value, every `max_octet_length` and
every character set with `mbmaxlen ≥ 1`, the VARCHAR handler is returned if and
only if the quotient `max_octet_length / mbmaxlen` is at most
`CONVERT_IF_BIGGER_TO_BLOB`; for a quotient strictly above the threshold a
BLOB-family handler (BLOB, MEDIUM_BLOB or LONG_BLOB) is returned. -/
theorem adjusted_varchar_iff_quotient_le_threshold
    (CONVERT_IF_BIGGER_TO_BLOB max_octet_length : Nat) (cs : CHARSET_INFO)
    (hmb : 1 ≤ cs.mbmaxlen) :
    (Type_handler_string_result.type_handler_adjusted_to_max_octet_length
        CONVERT_IF_BIGGER_TO_BLOB max_octet_length cs = Outcome.returns type_handler_varchar
      ↔ max_octet_length / cs.mbmaxlen ≤ CONVERT_IF_BIGGER_TO_BLOB) ∧
    (CONVERT_IF_BIGGER_TO_BLOB < max_octet_length / cs.mbmaxlen →
      Type_handler_string_result.type_handler_adjusted_to_max_octet_length
          CONVERT_IF_BIGGER_TO_BLOB max_octet_length cs = Outcome.returns type_handler_blob ∨
      Type_handler_string_result.type_handler_adjusted_to_max_octet_length
          CONVERT_IF_BIGGER_TO_BLOB max_octet_length cs
        = Outcome.returns type_handler_medium_blob ∨
      Type_handler_string_result.type_handler_adjusted_to_max_octet_length
          CONVERT_IF_BIGGER_TO_BLOB max_octet_length cs
        = Outcome.returns type_handler_long_blob) := by
  have hne : cs.mbmaxlen ≠ 0 := by omega
  unfold Type_handler_string_result.type_handler_adjusted_to_max_octet_length
  rw [if_neg hne]
  constructor
  · constructor
    · intro h
      by_contra hq
      rw [if_neg hq] at h
      split_ifs at h <;> simp at h
    · intro hq
      rw [if_pos hq]
  · intro hq
    rw [if_neg (by omega)]
    split_ifs <;> simp

/-- Witness for claim C2 (amended): octet length 1536 in a three-byte character
set has quotient 512, at the threshold 512, and VARCHAR is returned. -/
theorem adjusted_varchar_iff_quotient_le_threshold_witness :
    1 ≤ cs_three_byte.mbmaxlen ∧
    ((Type_handler_string_result.type_handler_adjusted_to_max_octet_length
        512 1536 cs_three_byte = Outcome.returns type_handler_varchar
      ↔ 1536 / cs_three_byte.mbmaxlen ≤ 512) ∧
    (512 < 1536 / cs_three_byte.mbmaxlen →
      Type_handler_string_result.type_handler_adjusted_to_max_octet_length
          512 1536 cs_three_byte = Outcome.returns type_handler_blob ∨
      Type_handler_string_result.type_handler_adjusted_to_max_octet_length
          512 1536 cs_three_byte = Outcome.returns type_handler_medium_blob ∨
      Type_handler_string_result.type_handler_adjusted_to_max_octet_length
          512 1536 cs_three_byte = Outcome.returns type_handler_long_blob)) :=
  ⟨by decide, adjusted_varchar_iff_quotient_le_threshold 512 1536 cs_three_byte (by decide)⟩

/-- Claim C3: whenever `type_handler_adjusted_to_max_octet_length` is defined
(`mbmaxlen ≥ 1`) and does not take the VARCHAR branch, its result is the BLOB tier
of `max_octet_length` alone: BLOB below 65536, MEDIUM_BLOB from 65536 up to
16777215, LONG_BLOB from 16777216 on. On no input at all does it return the
TINY_BLOB handler or the fixed-length STRING handler. -/
theorem adjusted_blob_tier_by_octet_length
    (CONVERT_IF_BIGGER_TO_BLOB max_octet_length : Nat) (cs : CHARSET_INFO) :
    (1 ≤ cs.mbmaxlen →
      ¬ (max_octet_length / cs.mbmaxlen ≤ CONVERT_IF_BIGGER_TO_BLOB) →
      Type_handler_string_result.type_handler_adjusted_to_max_octet_length
          CONVERT_IF_BIGGER_TO_BLOB max_octet_length cs
        = Outcome.returns (spec_blob_tier max_octet_length)) ∧
    Type_handler_string_result.type_handler_adjusted_to_max_octet_length
        CONVERT_IF_BIGGER_TO_BLOB max_octet_length cs
      ≠ Outcome.returns type_handler_tiny_blob ∧
    Type_handler_string_result.type_handler_adjusted_to_max_octet_length
        CONVERT_IF_BIGGER_TO_BLOB max_octet_length cs
      ≠ Outcome.returns type_handler_string := by
  unfold Type_handler_string_result.type_handler_adjusted_to_max_octet_length spec_blob_tier
  refine ⟨?_, ?_, ?_⟩
  · intro hmb hq
    rw [if_neg (by omega), if_neg hq]
    split_ifs <;> first | rfl | omega
  · split_ifs <;> simp
  · split_ifs <;> simp

/-- Witness for claim C3: 70000 octets in a single-byte character set with the
threshold at 512 go past the VARCHAR branch and give MEDIUM_BLOB. -/
theorem adjusted_blob_tier_by_octet_length_witness :
    1 ≤ cs_single_byte.mbmaxlen ∧ ¬ (70000 / cs_single_byte.mbmaxlen ≤ 512) ∧
    Type_handler_string_result.type_handler_adjusted_to_max_octet_length
        512 70000 cs_single_byte = Outcome.returns type_handler_medium_blob :=
  ⟨by decide, by decide,
    (adjusted_blob_tier_by_octet_length 512 70000 cs_single_byte).1 (by decide) (by decide)⟩

/-! ## Claims C4 to C9: the lookups on the defined codes -/

/-- Claim C4: for every defined field type code c for which
`get_handler_by_field_type` returns a handler, the comparison category of that
handler is the one the reference table gives for c (integer codes, YEAR and BIT
are INTEGER; FLOAT and DOUBLE are REAL; DECIMAL and NEWDECIMAL are DECIMAL; the
character, blob, ENUM, SET, GEOMETRY and NULL codes are STRING; all date and time
codes are TEMPORAL). -/
theorem field_type_handler_cmp_type (cfg : Build) (c : enum_field_types)
    (h : Type_handler)
    (hret : Type_handler.get_handler_by_field_type cfg (.enumerator c)
      = Outcome.returns (some h)) :
    h.cmp_type = spec_cmp_type_of_field_type c := by
  cases c <;>
    simp only [Type_handler.get_handler_by_field_type, Outcome.returns.injEq,
      Option.some.injEq] at hret <;>
    first
    | (subst hret; rfl)
    | (split_ifs at hret
       · simp only [Outcome.returns.injEq, Option.some.injEq] at hret
         subst hret; rfl
       · simp at hret)

/-- Witness for claim C4: LONGLONG is looked up to the LONGLONG handler, whose
category is INTEGER. -/
theorem field_type_handler_cmp_type_witness :
    Type_handler.get_handler_by_field_type release_build (.enumerator MYSQL_TYPE_LONGLONG)
      = Outcome.returns (some type_handler_longlong) ∧
    type_handler_longlong.cmp_type = INT_RESULT :=
  ⟨rfl, field_type_handler_cmp_type release_build MYSQL_TYPE_LONGLONG type_handler_longlong rfl⟩

/-- Claim C5: in every build, the field-type and the real-type lookup of
MYSQL_TYPE_STRING return the same handler (the fixed-length STRING handler),
while the real-type lookups of MYSQL_TYPE_ENUM and MYSQL_TYPE_SET return the ENUM
and the SET handler, each different from that STRING handler and different from
each other. -/
theorem real_type_string_enum_set (cfg : Build) :
    Type_handler.get_handler_by_field_type cfg (.enumerator MYSQL_TYPE_STRING)
      = Type_handler.get_handler_by_real_type cfg (.enumerator MYSQL_TYPE_STRING) ∧
    Type_handler.get_handler_by_real_type cfg (.enumerator MYSQL_TYPE_STRING)
      = Outcome.returns (some type_handler_string) ∧
    Type_handler.get_handler_by_real_type cfg (.enumerator MYSQL_TYPE_ENUM)
      = Outcome.returns (some type_handler_enum) ∧
    Type_handler.get_handler_by_real_type cfg (.enumerator MYSQL_TYPE_SET)
      = Outcome.returns (some type_handler_set) ∧
    Type_handler.get_handler_by_real_type cfg (.enumerator MYSQL_TYPE_ENUM)
      ≠ Type_handler.get_handler_by_real_type cfg (.enumerator MYSQL_TYPE_STRING) ∧
    Type_handler.get_handler_by_real_type cfg (.enumerator MYSQL_TYPE_SET)
      ≠ Type_handler.get_handler_by_real_type cfg (.enumerator MYSQL_TYPE_STRING) ∧
    Type_handler.get_handler_by_real_type cfg (.enumerator MYSQL_TYPE_ENUM)
      ≠ Type_handler.get_handler_by_real_type cfg (.enumerator MYSQL_TYPE_SET) := by
  simp [Type_handler.get_handler_by_field_type, Type_handler.get_handler_by_real_type]

/-- Claim C6, as stated, fails: the field-type lookup of MYSQL_TYPE_ENUM and of
MYSQL_TYPE_SET returns the VARCHAR handler, which is not the handler it returns
for MYSQL_TYPE_STRING. -/
theorem field_type_enum_set_not_string_handler :
    Type_handler.get_handler_by_field_type release_build (.enumerator MYSQL_TYPE_ENUM)
      = Outcome.returns (some type_handler_varchar) ∧
    Type_handler.get_handler_by_field_type release_build (.enumerator MYSQL_TYPE_SET)
      = Outcome.returns (some type_handler_varchar) ∧
    Type_handler.get_handler_by_field_type release_build (.enumerator MYSQL_TYPE_STRING)
      = Outcome.returns (some type_handler_string) ∧
    Type_handler.get_handler_by_field_type release_build (.enumerator MYSQL_TYPE_ENUM)
      ≠ Type_handler.get_handler_by_field_type release_build (.enumerator MYSQL_TYPE_STRING) ∧
    Type_handler.get_handler_by_field_type release_build (.enumerator MYSQL_TYPE_SET)
      ≠ Type_handler.get_handler_by_field_type release_build
          (.enumerator MYSQL_TYPE_STRING) := by
  decide

/-- Claim C6 (amended): in every build, `get_handler_by_field_type` maps
MYSQL_TYPE_ENUM and MYSQL_TYPE_SET to one and the same handler, namely the handler
it returns for MYSQL_TYPE_VARCHAR (the VARCHAR handler), and maps
MYSQL_TYPE_STRING to the fixed-length STRING handler, a different one. -/
theorem field_type_enum_set_map_to_varchar (cfg : Build) :
    Type_handler.get_handler_by_field_type cfg (.enumerator MYSQL_TYPE_ENUM)
      = Type_handler.get_handler_by_field_type cfg (.enumerator MYSQL_TYPE_VARCHAR) ∧
    Type_handler.get_handler_by_field_type cfg (.enumerator MYSQL_TYPE_SET)
      = Type_handler.get_handler_by_field_type cfg (.enumerator MYSQL_TYPE_VARCHAR) ∧
    Type_handler.get_handler_by_field_type cfg (.enumerator MYSQL_TYPE_VARCHAR)
      = Outcome.returns (some type_handler_varchar) ∧
    Type_handler.get_handler_by_field_type cfg (.enumerator MYSQL_TYPE_STRING)
      = Outcome.returns (some type_handler_string) ∧
    Type_handler.get_handler_by_field_type cfg (.enumerator MYSQL_TYPE_STRING)
      ≠ Type_handler.get_handler_by_field_type cfg (.enumerator MYSQL_TYPE_VARCHAR) := by
  simp [Type_handler.get_handler_by_field_type]

/-- Claim C7: in every build, `get_handler_by_field_type` gives TIMESTAMP the
handler of TIMESTAMP2, DATE the handler of NEWDATE, TIME the handler of TIME2 and
DATETIME the handler of DATETIME2 (the timestamp2, newdate, time2 and datetime2
handlers); and for no value of the type code at all, defined or not, does it
return the legacy timestamp, date, time or datetime handler. -/
theorem field_type_legacy_temporal_to_successor (cfg : Build) :
    (Type_handler.get_handler_by_field_type cfg (.enumerator MYSQL_TYPE_TIMESTAMP)
        = Type_handler.get_handler_by_field_type cfg (.enumerator MYSQL_TYPE_TIMESTAMP2) ∧
      Type_handler.get_handler_by_field_type cfg (.enumerator MYSQL_TYPE_TIMESTAMP2)
        = Outcome.returns (some type_handler_timestamp2)) ∧
    (Type_handler.get_handler_by_field_type cfg (.enumerator MYSQL_TYPE_DATE)
        = Type_handler.get_handler_by_field_type cfg (.enumerator MYSQL_TYPE_NEWDATE) ∧
      Type_handler.get_handler_by_field_type cfg (.enumerator MYSQL_TYPE_NEWDATE)
        = Outcome.returns (some type_handler_newdate)) ∧
    (Type_handler.get_handler_by_field_type cfg (.enumerator MYSQL_TYPE_TIME)
        = Type_handler.get_handler_by_field_type cfg (.enumerator MYSQL_TYPE_TIME2) ∧
      Type_handler.get_handler_by_field_type cfg (.enumerator MYSQL_TYPE_TIME2)
        = Outcome.returns (some type_handler_time2)) ∧
    (Type_handler.get_handler_by_field_type cfg (.enumerator MYSQL_TYPE_DATETIME)
        = Type_handler.get_handler_by_field_type cfg (.enumerator MYSQL_TYPE_DATETIME2) ∧
      Type_handler.get_handler_by_field_type cfg (.enumerator MYSQL_TYPE_DATETIME2)
        = Outcome.returns (some type_handler_datetime2)) ∧
    ∀ type : Enum_value enum_field_types,
      Type_handler.get_handler_by_field_type cfg type
        ≠ Outcome.returns (some type_handler_timestamp) ∧
      Type_handler.get_handler_by_field_type cfg type
        ≠ Outcome.returns (some type_handler_date) ∧
      Type_handler.get_handler_by_field_type cfg type
        ≠ Outcome.returns (some type_handler_time) ∧
      Type_handler.get_handler_by_field_type cfg type
        ≠ Outcome.returns (some type_handler_datetime) := by
  refine ⟨⟨rfl, rfl⟩, ⟨rfl, rfl⟩, ⟨rfl, rfl⟩, ⟨rfl, rfl⟩, ?_⟩
  rintro (c | raw)
  · cases c <;> simp [Type_handler.get_handler_by_field_type]
    split_ifs <;> exact ⟨by simp, by simp, by simp, by simp⟩
  · simp only [Type_handler.get_handler_by_field_type, DBUG_ASSERT]
    split_ifs <;> simp

/-- Claim C8, as stated, fails: MYSQL_TYPE_VAR_STRING is not among the codes the
claim lists as diverging (ENUM, SET and the legacy temporal codes), and yet the
real-type lookup returns the STRING handler for it where the field-type lookup
returns the VARCHAR handler. -/
theorem real_type_differs_at_var_string :
    spec_storage_type_varies MYSQL_TYPE_VAR_STRING = false ∧
    Type_handler.get_handler_by_field_type release_build (.enumerator MYSQL_TYPE_VAR_STRING)
      = Outcome.returns (some type_handler_varchar) ∧
    Type_handler.get_handler_by_real_type release_build (.enumerator MYSQL_TYPE_VAR_STRING)
      = Outcome.returns (some type_handler_string) ∧
    Type_handler.get_handler_by_real_type release_build (.enumerator MYSQL_TYPE_VAR_STRING)
      ≠ Type_handler.get_handler_by_field_type release_build
          (.enumerator MYSQL_TYPE_VAR_STRING) := by
  decide

/-- Claim C8 (amended): in every build and for every defined type code c, the
real-type lookup differs from the field-type lookup exactly when c is ENUM, SET,
VAR_STRING or a legacy temporal code (TIMESTAMP, DATE, TIME, DATETIME); for every
other defined code the two lookups have the same result. -/
theorem real_type_differs_iff (cfg : Build) (c : enum_field_types) :
    Type_handler.get_handler_by_real_type cfg (.enumerator c)
      ≠ Type_handler.get_handler_by_field_type cfg (.enumerator c)
    ↔ (spec_storage_type_varies c = true ∨ c = MYSQL_TYPE_VAR_STRING) := by
  cases c <;>
    simp [Type_handler.get_handler_by_real_type, Type_handler.get_handler_by_field_type,
      spec_storage_type_varies]

/-- Claim C9: in every build and for every defined type code c other than
GEOMETRY, both lookups return a non-null handler; for GEOMETRY both return the
geometry handler when spatial support is compiled in and NULL when it is compiled
out; and a defined code for which either lookup returns NULL is GEOMETRY. -/
theorem lookup_null_only_for_geometry (cfg : Build) (c : enum_field_types) :
    (c ≠ MYSQL_TYPE_GEOMETRY →
      (∃ h, Type_handler.get_handler_by_field_type cfg (.enumerator c)
          = Outcome.returns (some h)) ∧
      (∃ h, Type_handler.get_handler_by_real_type cfg (.enumerator c)
          = Outcome.returns (some h))) ∧
    (cfg.HAVE_SPATIAL = true →
      Type_handler.get_handler_by_field_type cfg (.enumerator MYSQL_TYPE_GEOMETRY)
        = Outcome.returns (some type_handler_geometry) ∧
      Type_handler.get_handler_by_real_type cfg (.enumerator MYSQL_TYPE_GEOMETRY)
        = Outcome.returns (some type_handler_geometry)) ∧
    (cfg.HAVE_SPATIAL = false →
      Type_handler.get_handler_by_field_type cfg (.enumerator MYSQL_TYPE_GEOMETRY)
        = Outcome.returns none ∧
      Type_handler.get_handler_by_real_type cfg (.enumerator MYSQL_TYPE_GEOMETRY)
        = Outcome.returns none) ∧
    (Type_handler.get_handler_by_field_type cfg (.enumerator c) = Outcome.returns none →
      c = MYSQL_TYPE_GEOMETRY) ∧
    (Type_handler.get_handler_by_real_type cfg (.enumerator c) = Outcome.returns none →
      c = MYSQL_TYPE_GEOMETRY) := by
  refine ⟨?_, ?_, ?_, ?_, ?_⟩
  · intro hc
    cases c <;>
      first
      | exact absurd rfl hc
      | exact ⟨⟨_, rfl⟩, ⟨_, rfl⟩⟩
  · intro hs
    simp [Type_handler.get_handler_by_field_type, Type_handler.get_handler_by_real_type, hs]
  · intro hs
    simp [Type_handler.get_handler_by_field_type, Type_handler.get_handler_by_real_type, hs]
  · intro hn
    cases c <;> first | rfl | simp [Type_handler.get_handler_by_field_type] at hn
  · intro hn
    cases c <;> first | rfl | simp [Type_handler.get_handler_by_real_type] at hn

/-- Witness for claim C9: in a build without spatial support the code
MYSQL_TYPE_TINY still has a handler in both lookups, and GEOMETRY has none. -/
theorem lookup_null_only_for_geometry_witness :
    (MYSQL_TYPE_TINY ≠ MYSQL_TYPE_GEOMETRY ∧
      (∃ h, Type_handler.get_handler_by_field_type release_build_no_spatial
          (.enumerator MYSQL_TYPE_TINY) = Outcome.returns (some h)) ∧
      (∃ h, Type_handler.get_handler_by_real_type release_build_no_spatial
          (.enumerator MYSQL_TYPE_TINY) = Outcome.returns (some h))) ∧
    (release_build_no_spatial.HAVE_SPATIAL = false ∧
      Type_handler.get_handler_by_field_type release_build_no_spatial
          (.enumerator MYSQL_TYPE_GEOMETRY) = Outcome.returns none ∧
      Type_handler.get_handler_by_real_type release_build_no_spatial
          (.enumerator MYSQL_TYPE_GEOMETRY) = Outcome.returns none) :=
  ⟨⟨by decide,
      (lookup_null_only_for_geometry release_build_no_spatial MYSQL_TYPE_TINY).1 (by decide)⟩,
    ⟨rfl,
      (lookup_null_only_for_geometry release_build_no_spatial MYSQL_TYPE_TINY).2.2.1 rfl⟩⟩

/-! ## Claim C10: values outside the enumeration -/

/-- Claim C10, as stated, fails: in a build with assertions compiled out, each of
the three lookups, given a value that is none of the enumerators, returns the
STRING handler, which is neither NULL nor an abort. -/
theorem out_of_range_lookup_returns_string_handler :
    Type_handler.get_handler_by_field_type release_build (.out_of_range 100)
      = Outcome.returns (some type_handler_string) ∧
    Type_handler.get_handler_by_real_type release_build (.out_of_range 100)
      = Outcome.returns (some type_handler_string) ∧
    Type_handler.get_handler_by_cmp_type release_build (.out_of_range 100)
      = Outcome.returns (some type_handler_string) ∧
    Type_handler.get_handler_by_field_type release_build (.out_of_range 100)
      ≠ Outcome.returns none ∧
    Type_handler.get_handler_by_field_type release_build (.out_of_range 100)
      ≠ Outcome.assert_failed := by
  decide

/-- Claim C10 (amended): for every value outside the enumeration, each of
`get_handler_by_field_type`, `get_handler_by_real_type` and
`get_handler_by_cmp_type` aborts on `DBUG_ASSERT(0)` in a build where assertions
are active, and returns the fixed-length STRING handler in a build where they are
compiled out; in neither build is NULL returned. -/
theorem out_of_range_lookup_asserts_or_string (cfg : Build) (raw : Int) :
    (cfg.DBUG_ASSERT_enabled = true →
      Type_handler.get_handler_by_field_type cfg (.out_of_range raw) = Outcome.assert_failed ∧
      Type_handler.get_handler_by_real_type cfg (.out_of_range raw) = Outcome.assert_failed ∧
      Type_handler.get_handler_by_cmp_type cfg (.out_of_range raw) = Outcome.assert_failed) ∧
    (cfg.DBUG_ASSERT_enabled = false →
      Type_handler.get_handler_by_field_type cfg (.out_of_range raw)
        = Outcome.returns (some type_handler_string) ∧
      Type_handler.get_handler_by_real_type cfg (.out_of_range raw)
        = Outcome.returns (some type_handler_string) ∧
      Type_handler.get_handler_by_cmp_type cfg (.out_of_range raw)
        = Outcome.returns (some type_handler_string)) ∧
    Type_handler.get_handler_by_field_type cfg (.out_of_range raw) ≠ Outcome.returns none ∧
    Type_handler.get_handler_by_real_type cfg (.out_of_range raw) ≠ Outcome.returns none ∧
    Type_handler.get_handler_by_cmp_type cfg (.out_of_range raw) ≠ Outcome.returns none := by
  simp only [Type_handler.get_handler_by_field_type, Type_handler.get_handler_by_real_type,
    Type_handler.get_handler_by_cmp_type, DBUG_ASSERT]
  cases cfg.DBUG_ASSERT_enabled <;> simp

/-- Witness for claim C10 (amended): a debug build aborts on the value 100, a
build without assertions returns the STRING handler for it. -/
theorem out_of_range_lookup_asserts_or_string_witness :
    (debug_build.DBUG_ASSERT_enabled = true ∧
      Type_handler.get_handler_by_field_type debug_build (.out_of_range 100)
        = Outcome.assert_failed ∧
      Type_handler.get_handler_by_real_type debug_build (.out_of_range 100)
        = Outcome.assert_failed ∧
      Type_handler.get_handler_by_cmp_type debug_build (.out_of_range 100)
        = Outcome.assert_failed) ∧
    (release_build_no_spatial.DBUG_ASSERT_enabled = false ∧
      Type_handler.get_handler_by_field_type release_build_no_spatial (.out_of_range 100)
        = Outcome.returns (some type_handler_string) ∧
      Type_handler.get_handler_by_real_type release_build_no_spatial (.out_of_range 100)
        = Outcome.returns (some type_handler_string) ∧
      Type_handler.get_handler_by_cmp_type release_build_no_spatial (.out_of_range 100)
        = Outcome.returns (some type_handler_string)) :=
  ⟨⟨rfl, (out_of_range_lookup_asserts_or_string debug_build 100).1 rfl⟩,
    ⟨rfl, (out_of_range_lookup_asserts_or_string release_build_no_spatial 100).2.1 rfl⟩⟩

/-! ## Claim C11: the representative of a comparison category -/

/-- Claim C11: in every build and for each of the six comparison categories c,
`get_handler_by_cmp_type` returns the representative the table names (REAL gives
DOUBLE, INT gives LONGLONG, DECIMAL gives NEWDECIMAL, STRING gives LONG_BLOB,
TIME gives DATETIME, ROW gives the row handler), and the comparison category of
that representative is c again. -/
theorem cmp_type_representative (cfg : Build) (c : Item_result) :
    Type_handler.get_handler_by_cmp_type cfg (.enumerator c)
      = Outcome.returns (some (spec_cmp_type_representative c)) ∧
    (spec_cmp_type_representative c).cmp_type = c ∧
    Type_handler.get_handler_by_cmp_type cfg (.enumerator STRING_RESULT)
      = Outcome.returns (some type_handler_long_blob) ∧
    Type_handler.get_handler_by_cmp_type cfg (.enumerator STRING_RESULT)
      ≠ Outcome.returns (some type_handler_varchar) := by
  refine ⟨?_, ?_, rfl, ?_⟩
  · cases c <;> rfl
  · cases c <;> rfl
  · simp [Type_handler.get_handler_by_cmp_type]

/-! ## Claims C12 to C16: decoding of the metadata -/

/-- Claim C12: for every metadata value whose low byte is at most
`DECIMAL_MAX_SCALE`, in every build, the NEWDECIMAL conversion field is a
`Field_new_decimal` whose decimals are `metadata & 0xFF` and whose maximum length
is `my_decimal_precision_to_length(metadata >> 8, metadata & 0xFF, false)`. -/
theorem newdecimal_conversion_field (cfg : Build) (DECIMAL_MAX_SCALE : Nat)
    (my_decimal_precision_to_length : Nat → Nat → Bool → Nat)
    (table : TABLE) (metadata : Nat) (target : Target_field)
    (hscale : metadata &&& 0xFF ≤ DECIMAL_MAX_SCALE) :
    Type_handler_newdecimal.make_conversion_table_field cfg DECIMAL_MAX_SCALE
        my_decimal_precision_to_length table metadata target
      = Outcome.returns (some (sql.Field.Field_new_decimal uchar_ptr.NULL
          (my_decimal_precision_to_length (metadata >>> 8) (metadata &&& 0xFF) false)
          (uchar_ptr.string_literal "") 1 utype.NONE ""
          (metadata &&& 0xFF) false false)) := by
  simp [Type_handler_newdecimal.make_conversion_table_field, DBUG_ASSERT, hscale, TMPNAME]

/-- Witness for claim C12: metadata 0x0A02 (precision 10, scale 2) with a scale
limit of 38 gives decimals 2 and the length of the formula at (10, 2). -/
theorem newdecimal_conversion_field_witness :
    0x0A02 &&& 0xFF ≤ 38 ∧
    Type_handler_newdecimal.make_conversion_table_field debug_build 38
        sample_decimal_length sample_table 0x0A02 sample_target
      = Outcome.returns (some (sql.Field.Field_new_decimal uchar_ptr.NULL
          (sample_decimal_length 10 2 false)
          (uchar_ptr.string_literal "") 1 utype.NONE "" 2 false false)) :=
  ⟨by decide,
    newdecimal_conversion_field debug_build 38 sample_decimal_length sample_table 0x0A02
      sample_target (by decide)⟩

/-- Claim C13: for every metadata value, every target field and every state of
the error log, the OLDDECIMAL conversion returns no field (NULL) and appends
exactly one message to the error log; the message ends with the database, table
and column name of the target, separated by dots. -/
theorem olddecimal_conversion_fails_with_one_diagnostic (error_log : List String)
    (table : TABLE) (metadata : Nat) (target : Target_field) :
    (Type_handler_olddecimal.make_conversion_table_field error_log table metadata target).2
      = none ∧
    (Type_handler_olddecimal.make_conversion_table_field error_log table metadata target).1
      = error_log ++ [olddecimal_error_message target.table.s.db
          target.table.s.table_name target.field_name] ∧
    (Type_handler_olddecimal.make_conversion_table_field error_log table metadata
        target).1.length = error_log.length + 1 ∧
    (∃ text : String,
      olddecimal_error_message target.table.s.db target.table.s.table_name
          target.field_name
        = text ++ target.table.s.db ++ "." ++ target.table.s.table_name ++ "." ++
            target.field_name ++ ".") := by
  refine ⟨rfl, rfl, ?_, ⟨_, rfl⟩⟩
  simp [Type_handler_olddecimal.make_conversion_table_field]

/-- The low byte of a value, written as a mask, is its remainder modulo 256. -/
theorem and_0xff_eq_mod (m : Nat) : m &&& 0xFF = m % 256 :=
  Nat.and_pow_two_sub_one_eq_mod m 8

/-- The low three bits of a value, written as a mask, are its remainder modulo 8. -/
theorem and_7_eq_mod (m : Nat) : m &&& 7 = m % 8 :=
  Nat.and_pow_two_sub_one_eq_mod m 3

/-- Claim C14: for every 32-bit BIT metadata value whose extra-bits field (the
low byte) is at most 7, in every build, the conversion field is a
`Field_bit_as_char` of maximum length `8 * (metadata >> 8) + (metadata & 7)`. -/
theorem bit_conversion_field_length (cfg : Build) (table : TABLE) (metadata : Nat)
    (target : Target_field) (h32 : metadata < 2 ^ 32) (hextra : metadata &&& 0xFF ≤ 7) :
    Type_handler_bit.make_conversion_table_field cfg table metadata target
      = Outcome.returns (some (sql.Field.Field_bit_as_char uchar_ptr.NULL
          (8 * (metadata >>> 8) + (metadata &&& 7))
          (uchar_ptr.string_literal "") 1 utype.NONE "")) := by
  have hlow : metadata &&& 0xFF = metadata &&& 7 := by
    rw [and_0xff_eq_mod] at hextra ⊢
    rw [and_7_eq_mod]
    omega
  have hfit : to_uint32 (8 * (metadata >>> 8) + (metadata &&& 7))
      = 8 * (metadata >>> 8) + (metadata &&& 7) := by
    rw [and_7_eq_mod, Nat.shiftRight_eq_div_pow]
    unfold to_uint32
    omega
  simp only [Type_handler_bit.make_conversion_table_field, DBUG_ASSERT, hextra,
    decide_True, Bool.not_true, Bool.and_false, TMPNAME]
  rw [hlow, hfit]
  rfl

/-- Witness for claim C14: metadata 0x0203 (two whole bytes, three extra bits)
gives maximum length 19. -/
theorem bit_conversion_field_length_witness :
    0x0203 < 2 ^ 32 ∧ 0x0203 &&& 0xFF ≤ 7 ∧
    Type_handler_bit.make_conversion_table_field debug_build sample_table 0x0203
        sample_target
      = Outcome.returns (some (sql.Field.Field_bit_as_char uchar_ptr.NULL 19
          (uchar_ptr.string_literal "") 1 utype.NONE "")) :=
  ⟨by decide, by decide,
    bit_conversion_field_length debug_build sample_table 0x0203 sample_target
      (by decide) (by decide)⟩

/-- Claim C15, as stated, fails: in a build with assertions compiled out, the BIT
metadata 0x0108, whose low byte 8 is greater than 7, is not rejected; a conversion
field of maximum length 16 is produced. -/
theorem bit_extra_bits_above_7_not_rejected :
    7 < 0x0108 &&& 0xFF ∧
    Type_handler_bit.make_conversion_table_field release_build sample_table 0x0108
        sample_target
      = Outcome.returns (some (sql.Field.Field_bit_as_char uchar_ptr.NULL 16
          (uchar_ptr.string_literal "") 1 utype.NONE "")) ∧
    Type_handler_bit.make_conversion_table_field release_build sample_table 0x0108
        sample_target ≠ Outcome.assert_failed := by
  decide

/-- Claim C15 (amended): for every 32-bit BIT metadata value whose low byte is
greater than 7, `make_conversion_table_field` aborts on its `DBUG_ASSERT` and
produces no field in a build where assertions are active; in a build where they
are compiled out it performs no check and produces a field of maximum length
`8 * (metadata >> 8) + (metadata & 0xFF)`. -/
theorem bit_extra_bits_above_7 (cfg : Build) (table : TABLE) (metadata : Nat)
    (target : Target_field) (h32 : metadata < 2 ^ 32) (hextra : 7 < metadata &&& 0xFF) :
    (cfg.DBUG_ASSERT_enabled = true →
      Type_handler_bit.make_conversion_table_field cfg table metadata target
        = Outcome.assert_failed) ∧
    (cfg.DBUG_ASSERT_enabled = false →
      Type_handler_bit.make_conversion_table_field cfg table metadata target
        = Outcome.returns (some (sql.Field.Field_bit_as_char uchar_ptr.NULL
            (8 * (metadata >>> 8) + (metadata &&& 0xFF))
            (uchar_ptr.string_literal "") 1 utype.NONE ""))) := by
  have hnot : ¬ (metadata &&& 0xFF ≤ 7) := by omega
  have hfit : to_uint32 (8 * (metadata >>> 8) + (metadata &&& 0xFF))
      = 8 * (metadata >>> 8) + (metadata &&& 0xFF) := by
    rw [and_0xff_eq_mod, Nat.shiftRight_eq_div_pow]
    unfold to_uint32
    omega
  constructor
  · intro hdbg
    simp [Type_handler_bit.make_conversion_table_field, DBUG_ASSERT, hdbg, hnot]
  · intro hdbg
    simp only [Type_handler_bit.make_conversion_table_field, DBUG_ASSERT, hdbg,
      Bool.false_and, TMPNAME]
    rw [hfit]
    rfl

/-- Witness for claim C15 (amended): metadata 0x0108 aborts in a debug build and
gives a field of maximum length 16 in a build without assertions. -/
theorem bit_extra_bits_above_7_witness :
    0x0108 < 2 ^ 32 ∧ 7 < 0x0108 &&& 0xFF ∧
    (debug_build.DBUG_ASSERT_enabled = true ∧
      Type_handler_bit.make_conversion_table_field debug_build sample_table 0x0108
          sample_target = Outcome.assert_failed) ∧
    (release_build.DBUG_ASSERT_enabled = false ∧
      Type_handler_bit.make_conversion_table_field release_build sample_table 0x0108
          sample_target
        = Outcome.returns (some (sql.Field.Field_bit_as_char uchar_ptr.NULL 16
            (uchar_ptr.string_literal "") 1 utype.NONE ""))) :=
  ⟨by decide, by decide,
    ⟨rfl, (bit_extra_bits_above_7 debug_build sample_table 0x0108 sample_target
      (by decide) (by decide)).1 rfl⟩,
    ⟨rfl, (bit_extra_bits_above_7 release_build sample_table 0x0108 sample_target
      (by decide) (by decide)).2 rfl⟩⟩

set_option maxRecDepth 20000 in
/-- On a ten-bit value, masking bits 8 and 9 and flipping them computes
`(3 - y / 256) * 256`. -/
theorem mask_flip_0x300 : ∀ y, y < 1024 → (y &&& 0x300) ^^^ 0x300 = (3 - y / 256) * 256 := by
  decide

/-- The unpack formula of the fixed-length STRING metadata in arithmetic form:
bits 12-13 of the metadata, inverted, are the length bits 8-9, and the low byte
of the metadata is the low byte of the length. -/
theorem string_unpack_formula (metadata : Nat) :
    (((metadata >>> 4) &&& 0x300) ^^^ 0x300) + (metadata &&& 0xFF)
      = (3 - metadata / 4096 % 4) * 256 + metadata % 256 := by
  have hmask : (metadata >>> 4) &&& 0x300 = ((metadata >>> 4) % 1024) &&& 0x300 := by
    have h10 : (metadata >>> 4) % 1024 = (metadata >>> 4) &&& 1023 :=
      (Nat.and_pow_two_sub_one_eq_mod (metadata >>> 4) 10).symm
    rw [h10, Nat.and_assoc]
    rfl
  rw [and_0xff_eq_mod, hmask, mask_flip_0x300 _ (Nat.mod_lt _ (by decide)),
    Nat.shiftRight_eq_div_pow]
  omega

/-- Claim C16: for every metadata value and target, the fixed-length STRING
conversion field is a `Field_string` of maximum length
`(((metadata >> 4) & 0x300) ^ 0x300) + (metadata & 0xFF)` in the character set of
the target; that length is at most 1023, and two metadata values that agree in
bits 12-13 and in bits 0-7 give the same length. -/
theorem string_conversion_field_length (table : TABLE) (metadata : Nat)
    (target : Target_field) :
    Type_handler_string.make_conversion_table_field table metadata target
      = some (sql.Field.Field_string uchar_ptr.NULL
          ((((metadata >>> 4) &&& 0x300) ^^^ 0x300) + (metadata &&& 0xFF))
          (uchar_ptr.string_literal "") 1 utype.NONE "" target.charset) ∧
    (((metadata >>> 4) &&& 0x300) ^^^ 0x300) + (metadata &&& 0xFF) ≤ 1023 ∧
    (∀ other : Nat,
      (metadata >>> 12) % 4 = (other >>> 12) % 4 → metadata % 256 = other % 256 →
      (((metadata >>> 4) &&& 0x300) ^^^ 0x300) + (metadata &&& 0xFF)
        = (((other >>> 4) &&& 0x300) ^^^ 0x300) + (other &&& 0xFF)) := by
  have hbound : (((metadata >>> 4) &&& 0x300) ^^^ 0x300) + (metadata &&& 0xFF) ≤ 1023 := by
    rw [string_unpack_formula]
    omega
  refine ⟨?_, hbound, ?_⟩
  · have hfit : to_uint32 ((((metadata >>> 4) &&& 0x300) ^^^ 0x300) + (metadata &&& 0xFF))
        = (((metadata >>> 4) &&& 0x300) ^^^ 0x300) + (metadata &&& 0xFF) := by
      unfold to_uint32
      omega
    simp only [Type_handler_string.make_conversion_table_field, TMPNAME]
    rw [hfit]
  · intro other hhigh hlow
    rw [string_unpack_formula, string_unpack_formula]
    simp only [Nat.shiftRight_eq_div_pow] at hhigh
    omega

/-- Witness for claim C16: the metadata values 0x1E05 and 0x5005 agree in bits
12-13 and in the low byte, and both decode to the length 517. -/
theorem string_conversion_field_length_witness :
    (0x1E05 >>> 12) % 4 = (0x5005 >>> 12) % 4 ∧ 0x1E05 % 256 = 0x5005 % 256 ∧
    (((0x1E05 >>> 4) &&& 0x300) ^^^ 0x300) + (0x1E05 &&& 0xFF)
      = (((0x5005 >>> 4) &&& 0x300) ^^^ 0x300) + (0x5005 &&& 0xFF) ∧
    Type_handler_string.make_conversion_table_field sample_table 0x1E05 sample_target
      = some (sql.Field.Field_string uchar_ptr.NULL 517
          (uchar_ptr.string_literal "") 1 utype.NONE "" cs_single_byte) :=
  ⟨by decide, by decide,
    (string_conversion_field_length sample_table 0x1E05 sample_target).2.2 0x5005
      (by decide) (by decide),
    (string_conversion_field_length sample_table 0x1E05 sample_target).1⟩

/-! ## Claims C17 to C20: type resolution of MIN/MAX aggregates -/

/-- On an enumerator the field-type lookup returns (a handler or NULL); it
neither aborts nor is undefined. -/
theorem get_handler_by_field_type_returns (cfg : Build) (c : enum_field_types) :
    ∃ r, Type_handler.get_handler_by_field_type cfg (.enumerator c) = Outcome.returns r := by
  cases c <;> first | exact ⟨_, rfl⟩ | skip
  simp only [Type_handler.get_handler_by_field_type]
  split_ifs <;> exact ⟨_, rfl⟩

/-- What `Item_sum_hybrid_fix_length_and_dec_numeric` does: it returns `false`
and leaves the aggregate with its argument unchanged, with the attributes of the
argument, marked nullable, with the handler looked up by the field type of the
real item if that is a column reference, and with the handler passed in
otherwise. -/
theorem fix_length_and_dec_numeric_result (cfg : Build) (func : Item_sum_hybrid)
    (handler : Type_handler) :
    ∃ f1 : Item_sum_hybrid,
      Type_handler_numeric.Item_sum_hybrid_fix_length_and_dec_numeric cfg func handler
        = Outcome.returns (f1, false) ∧
      f1.maybe_null = true ∧
      f1.argument = func.argument ∧
      f1.toType_std_attributes = func.argument.toType_std_attributes ∧
      (func.argument.real_item.type = Item_Type.FIELD_ITEM →
        Type_handler.get_handler_by_field_type cfg
            (.enumerator func.argument.real_item.field_type)
          = Outcome.returns f1.m_type_handler) ∧
      (func.argument.real_item.type ≠ Item_Type.FIELD_ITEM →
        f1.m_type_handler = some handler) := by
  obtain ⟨r, hr⟩ := get_handler_by_field_type_returns cfg func.argument.real_item.field_type
  by_cases hf : func.argument.real_item.type = Item_Type.FIELD_ITEM
  · refine ⟨{ toType_std_attributes := func.argument.toType_std_attributes,
              argument := func.argument, maybe_null := true, null_value := true,
              m_type_handler := r }, ?_, rfl, rfl, rfl, fun _ => hr, fun h => absurd hf h⟩
    simp [Type_handler_numeric.Item_sum_hybrid_fix_length_and_dec_numeric, hf,
      Item_sum_hybrid.set_handler_by_field_type, Item_sum_hybrid.set, hr, Outcome.bind]
  · refine ⟨{ toType_std_attributes := func.argument.toType_std_attributes,
              argument := func.argument, maybe_null := true, null_value := true,
              m_type_handler := some handler }, ?_, rfl, rfl, rfl,
            fun h => absurd h hf, fun _ => rfl⟩
    simp [Type_handler_numeric.Item_sum_hybrid_fix_length_and_dec_numeric, hf,
      Item_sum_hybrid.set_handler, Item_sum_hybrid.set]

/-- What the REAL resolver does: as the numeric helper with the DOUBLE handler,
except that the maximum length is recomputed by `float_length`. -/
theorem fix_length_and_dec_real_result (cfg : Build)
    (float_length : Item_sum_hybrid → Nat → Nat) (func : Item_sum_hybrid) :
    ∃ f1 : Item_sum_hybrid,
      Type_handler_real_result.Item_sum_hybrid_fix_length_and_dec cfg float_length func
        = Outcome.returns (f1, false) ∧
      f1.maybe_null = true ∧
      f1.argument = func.argument ∧
      (func.argument.real_item.type = Item_Type.FIELD_ITEM →
        Type_handler.get_handler_by_field_type cfg
            (.enumerator func.argument.real_item.field_type)
          = Outcome.returns f1.m_type_handler) ∧
      (func.argument.real_item.type ≠ Item_Type.FIELD_ITEM →
        f1.m_type_handler = some type_handler_double) := by
  obtain ⟨f1, h1, hn, ha, -, hfield, hexpr⟩ :=
    fix_length_and_dec_numeric_result cfg func type_handler_double
  refine ⟨{ f1 with max_length := float_length f1 f1.decimals }, ?_, hn, ha, hfield, hexpr⟩
  simp only [Type_handler_real_result.Item_sum_hybrid_fix_length_and_dec, h1, Outcome.bind]

/-- Claim C17: in every build and for every MIN/MAX aggregate, whatever its
argument (nullable or not, column or expression), each of the three numeric
resolvers (INTEGER, REAL, DECIMAL) returns and leaves the aggregate marked
nullable; resolving the result a second time returns again and leaves it
nullable. -/
theorem numeric_aggregate_always_nullable (cfg : Build)
    (float_length : Item_sum_hybrid → Nat → Nat) (func : Item_sum_hybrid) :
    (∃ f1 f2 : Item_sum_hybrid,
      Type_handler_int_result.Item_sum_hybrid_fix_length_and_dec cfg func
        = Outcome.returns (f1, false) ∧ f1.maybe_null = true ∧
      Type_handler_int_result.Item_sum_hybrid_fix_length_and_dec cfg f1
        = Outcome.returns (f2, false) ∧ f2.maybe_null = true) ∧
    (∃ f1 f2 : Item_sum_hybrid,
      Type_handler_real_result.Item_sum_hybrid_fix_length_and_dec cfg float_length func
        = Outcome.returns (f1, false) ∧ f1.maybe_null = true ∧
      Type_handler_real_result.Item_sum_hybrid_fix_length_and_dec cfg float_length f1
        = Outcome.returns (f2, false) ∧ f2.maybe_null = true) ∧
    (∃ f1 f2 : Item_sum_hybrid,
      Type_handler_decimal_result.Item_sum_hybrid_fix_length_and_dec cfg func
        = Outcome.returns (f1, false) ∧ f1.maybe_null = true ∧
      Type_handler_decimal_result.Item_sum_hybrid_fix_length_and_dec cfg f1
        = Outcome.returns (f2, false) ∧ f2.maybe_null = true) := by
  refine ⟨?_, ?_, ?_⟩
  · obtain ⟨f1, h1, hn1, -⟩ := fix_length_and_dec_numeric_result cfg func type_handler_longlong
    obtain ⟨f2, h2, hn2, -⟩ := fix_length_and_dec_numeric_result cfg f1 type_handler_longlong
    exact ⟨f1, f2, h1, hn1, h2, hn2⟩
  · obtain ⟨f1, h1, hn1, -⟩ := fix_length_and_dec_real_result cfg float_length func
    obtain ⟨f2, h2, hn2, -⟩ := fix_length_and_dec_real_result cfg float_length f1
    exact ⟨f1, f2, h1, hn1, h2, hn2⟩
  · obtain ⟨f1, h1, hn1, -⟩ := fix_length_and_dec_numeric_result cfg func type_handler_newdecimal
    obtain ⟨f2, h2, hn2, -⟩ := fix_length_and_dec_numeric_result cfg f1 type_handler_newdecimal
    exact ⟨f1, f2, h1, hn1, h2, hn2⟩

/-- Claim C18: in every build and for every MIN/MAX aggregate resolved by a
numeric resolver: if the real item of the argument is a column reference, the
aggregate gets the handler that `get_handler_by_field_type` returns for the field
type of that column; otherwise it gets LONGLONG from the INTEGER resolver, DOUBLE
from the REAL resolver and NEWDECIMAL from the DECIMAL resolver, whatever the
declared type of the expression. -/
theorem numeric_aggregate_handler (cfg : Build)
    (float_length : Item_sum_hybrid → Nat → Nat) (func : Item_sum_hybrid) :
    (func.argument.real_item.type = Item_Type.FIELD_ITEM →
      (∃ f1, Type_handler_int_result.Item_sum_hybrid_fix_length_and_dec cfg func
          = Outcome.returns (f1, false) ∧
        Type_handler.get_handler_by_field_type cfg
            (.enumerator func.argument.real_item.field_type)
          = Outcome.returns f1.m_type_handler) ∧
      (∃ f1, Type_handler_real_result.Item_sum_hybrid_fix_length_and_dec cfg float_length
            func = Outcome.returns (f1, false) ∧
        Type_handler.get_handler_by_field_type cfg
            (.enumerator func.argument.real_item.field_type)
          = Outcome.returns f1.m_type_handler) ∧
      (∃ f1, Type_handler_decimal_result.Item_sum_hybrid_fix_length_and_dec cfg func
          = Outcome.returns (f1, false) ∧
        Type_handler.get_handler_by_field_type cfg
            (.enumerator func.argument.real_item.field_type)
          = Outcome.returns f1.m_type_handler)) ∧
    (func.argument.real_item.type ≠ Item_Type.FIELD_ITEM →
      (∃ f1, Type_handler_int_result.Item_sum_hybrid_fix_length_and_dec cfg func
          = Outcome.returns (f1, false) ∧
        f1.m_type_handler = some type_handler_longlong) ∧
      (∃ f1, Type_handler_real_result.Item_sum_hybrid_fix_length_and_dec cfg float_length
            func = Outcome.returns (f1, false) ∧
        f1.m_type_handler = some type_handler_double) ∧
      (∃ f1, Type_handler_decimal_result.Item_sum_hybrid_fix_length_and_dec cfg func
          = Outcome.returns (f1, false) ∧
        f1.m_type_handler = some type_handler_newdecimal)) := by
  obtain ⟨fi, hi, -, -, -, hif, hie⟩ :=
    fix_length_and_dec_numeric_result cfg func type_handler_longlong
  obtain ⟨fr, hr, -, -, hrf, hre⟩ := fix_length_and_dec_real_result cfg float_length func
  obtain ⟨fd, hd, -, -, -, hdf, hde⟩ :=
    fix_length_and_dec_numeric_result cfg func type_handler_newdecimal
  constructor
  · intro hfield
    exact ⟨⟨fi, hi, hif hfield⟩, ⟨fr, hr, hrf hfield⟩, ⟨fd, hd, hdf hfield⟩⟩
  · intro hexpr
    exact ⟨⟨fi, hi, hie hexpr⟩, ⟨fr, hr, hre hexpr⟩, ⟨fd, hd, hde hexpr⟩⟩

/-- Witness for claim C18: MAX over a FLOAT column resolves, in the REAL
resolver, to the handler of MYSQL_TYPE_FLOAT; MAX over a computed expression
whose declared type is SMALLINT resolves, in the INTEGER resolver, to LONGLONG. -/
theorem numeric_aggregate_handler_witness :
    (float_column.real_item.type = Item_Type.FIELD_ITEM ∧
      ∃ f1, Type_handler_real_result.Item_sum_hybrid_fix_length_and_dec release_build
            sample_float_length (sample_aggregate float_column)
          = Outcome.returns (f1, false) ∧
        Type_handler.get_handler_by_field_type release_build
            (.enumerator MYSQL_TYPE_FLOAT) = Outcome.returns f1.m_type_handler) ∧
    (smallint_expression.real_item.type ≠ Item_Type.FIELD_ITEM ∧
      ∃ f1, Type_handler_int_result.Item_sum_hybrid_fix_length_and_dec release_build
            (sample_aggregate smallint_expression)
          = Outcome.returns (f1, false) ∧
        f1.m_type_handler = some type_handler_longlong) :=
  ⟨⟨rfl, ((numeric_aggregate_handler release_build sample_float_length
      (sample_aggregate float_column)).1 rfl).2.1⟩,
    ⟨by decide, ((numeric_aggregate_handler release_build sample_float_length
      (sample_aggregate smallint_expression)).2 (by decide)).1⟩⟩

/-- No field type code is looked up to the ENUM or the SET handler. -/
theorem get_handler_by_field_type_not_enum_set (cfg : Build) (c : enum_field_types) :
    Type_handler.get_handler_by_field_type cfg (.enumerator c)
      ≠ Outcome.returns (some type_handler_enum) ∧
    Type_handler.get_handler_by_field_type cfg (.enumerator c)
      ≠ Outcome.returns (some type_handler_set) := by
  cases c <;> simp [Type_handler.get_handler_by_field_type]
  split_ifs <;> exact ⟨by simp, by simp⟩

/-- Claim C20: in every build and for every MIN/MAX aggregate resolved by the
STRING resolver: if the real item of the argument is a column reference, the
aggregate gets the handler `get_handler_by_field_type` returns for the field type
of the argument, which is never the ENUM or SET handler and is the fixed-length
STRING handler when that field type is MYSQL_TYPE_STRING (as it is for an ENUM or
SET column); otherwise, the character set having `mbmaxlen ≥ 1`, it gets the
result of `type_handler_adjusted_to_max_octet_length` at the maximum length and
the collation of the aggregate, one of VARCHAR, BLOB, MEDIUM_BLOB, LONG_BLOB. -/
theorem string_aggregate_handler (cfg : Build) (CONVERT_IF_BIGGER_TO_BLOB : Nat)
    (func : Item_sum_hybrid) :
    (func.argument.real_item.type = Item_Type.FIELD_ITEM →
      ∃ f1, Type_handler_string_result.Item_sum_hybrid_fix_length_and_dec cfg
            CONVERT_IF_BIGGER_TO_BLOB func = Outcome.returns (f1, false) ∧
        Type_handler.get_handler_by_field_type cfg (.enumerator func.argument.field_type)
          = Outcome.returns f1.m_type_handler ∧
        f1.m_type_handler ≠ some type_handler_enum ∧
        f1.m_type_handler ≠ some type_handler_set ∧
        (func.argument.field_type = MYSQL_TYPE_STRING →
          f1.m_type_handler = some type_handler_string)) ∧
    (func.argument.real_item.type ≠ Item_Type.FIELD_ITEM →
      1 ≤ func.argument.collation.collation.mbmaxlen →
      ∃ f1 handler, Type_handler_string_result.Item_sum_hybrid_fix_length_and_dec cfg
            CONVERT_IF_BIGGER_TO_BLOB func = Outcome.returns (f1, false) ∧
        f1.m_type_handler = some handler ∧
        Type_handler_string_result.type_handler_adjusted_to_max_octet_length
            CONVERT_IF_BIGGER_TO_BLOB f1.max_length f1.collation.collation
          = Outcome.returns handler ∧
        (handler = type_handler_varchar ∨ handler = type_handler_blob ∨
          handler = type_handler_medium_blob ∨ handler = type_handler_long_blob)) := by
  constructor
  · intro hfield
    obtain ⟨r, hr⟩ := get_handler_by_field_type_returns cfg func.argument.field_type
    have hne := get_handler_by_field_type_not_enum_set cfg func.argument.field_type
    rw [hr] at hne
    refine ⟨{ toType_std_attributes := func.argument.toType_std_attributes,
              argument := func.argument, maybe_null := true, null_value := true,
              m_type_handler := r }, ?_, hr, ?_, ?_, ?_⟩
    · simp [Type_handler_string_result.Item_sum_hybrid_fix_length_and_dec, hfield,
        Item_sum_hybrid.set_handler_by_field_type, Item_sum_hybrid.set, hr, Outcome.bind]
    · intro h
      exact hne.1 (congrArg Outcome.returns h)
    · intro h
      exact hne.2 (congrArg Outcome.returns h)
    · intro hstr
      rw [hstr] at hr
      simp only [Type_handler.get_handler_by_field_type, Outcome.returns.injEq] at hr
      exact hr.symm
  · intro hexpr hmb
    have hne : func.argument.collation.collation.mbmaxlen ≠ 0 := by omega
    have hcases : ∃ handler,
        Type_handler_string_result.type_handler_adjusted_to_max_octet_length
            CONVERT_IF_BIGGER_TO_BLOB func.argument.max_length
            func.argument.collation.collation = Outcome.returns handler ∧
        (handler = type_handler_varchar ∨ handler = type_handler_blob ∨
          handler = type_handler_medium_blob ∨ handler = type_handler_long_blob) := by
      unfold Type_handler_string_result.type_handler_adjusted_to_max_octet_length
      rw [if_neg hne]
      split_ifs
      · exact ⟨_, rfl, Or.inl rfl⟩
      · exact ⟨_, rfl, Or.inr (Or.inr (Or.inr rfl))⟩
      · exact ⟨_, rfl, Or.inr (Or.inr (Or.inl rfl))⟩
      · exact ⟨_, rfl, Or.inr (Or.inl rfl)⟩
    obtain ⟨handler, hh, hfam⟩ := hcases
    refine ⟨{ toType_std_attributes := func.argument.toType_std_attributes,
              argument := func.argument, maybe_null := true, null_value := true,
              m_type_handler := some handler }, handler, ?_, rfl, hh, hfam⟩
    simp [Type_handler_string_result.Item_sum_hybrid_fix_length_and_dec, hexpr,
      Item_sum_hybrid.set_handler, Item_sum_hybrid.set, hh, Outcome.bind]

/-- Witness for claim C20: MAX over an ENUM column resolves to the fixed-length
STRING handler; MAX over a string expression of 70000 octets in a single-byte
character set, with the threshold at 512, resolves to MEDIUM_BLOB. -/
theorem string_aggregate_handler_witness :
    (enum_column.real_item.type = Item_Type.FIELD_ITEM ∧
      enum_column.field_type = MYSQL_TYPE_STRING ∧
      ∃ f1, Type_handler_string_result.Item_sum_hybrid_fix_length_and_dec release_build
            512 (sample_aggregate enum_column) = Outcome.returns (f1, false) ∧
        f1.m_type_handler = some type_handler_string) ∧
    (long_string_expression.real_item.type ≠ Item_Type.FIELD_ITEM ∧
      1 ≤ long_string_expression.collation.collation.mbmaxlen ∧
      ∃ f1 handler, Type_handler_string_result.Item_sum_hybrid_fix_length_and_dec
            release_build 512 (sample_aggregate long_string_expression)
          = Outcome.returns (f1, false) ∧
        f1.m_type_handler = some handler ∧
        Type_handler_string_result.type_handler_adjusted_to_max_octet_length
            512 f1.max_length f1.collation.collation = Outcome.returns handler ∧
        (handler = type_handler_varchar ∨ handler = type_handler_blob ∨
          handler = type_handler_medium_blob ∨ handler = type_handler_long_blob)) :=
  ⟨⟨rfl, rfl,
      (fun ⟨f1, h1, _, _, _, hstr⟩ => ⟨f1, h1, hstr rfl⟩)
        ((string_aggregate_handler release_build 512 (sample_aggregate enum_column)).1 rfl)⟩,
    ⟨by decide, by decide,
      (string_aggregate_handler release_build 512
        (sample_aggregate long_string_expression)).2 (by decide) (by decide)⟩⟩

/-! ## Claim C21: MIN/MAX over a temporal argument -/

/-- Claim C21: for every MIN/MAX aggregate resolved by the TEMPORAL resolver,
whether its argument is a column reference or a computed expression, the result
is the aggregate with the attributes of the argument, marked nullable, and with
exactly the type handler of the argument as its handler. In particular MAX over
a legacy TIMESTAMP column keeps the legacy timestamp handler, which is not the
handler the field-type lookup gives for MYSQL_TYPE_TIMESTAMP. -/
theorem temporal_aggregate_keeps_argument_handler (func : Item_sum_hybrid) :
    Type_handler_temporal_result.Item_sum_hybrid_fix_length_and_dec func
      = ({ toType_std_attributes := func.argument.toType_std_attributes,
           argument := func.argument, maybe_null := true, null_value := true,
           m_type_handler := some func.argument.type_handler }, false) ∧
    (Type_handler_temporal_result.Item_sum_hybrid_fix_length_and_dec func).1.m_type_handler
      = some func.argument.type_handler ∧
    (Type_handler_temporal_result.Item_sum_hybrid_fix_length_and_dec func).1.maybe_null
      = true ∧
    (Type_handler_temporal_result.Item_sum_hybrid_fix_length_and_dec
        (sample_aggregate legacy_timestamp_column)).1.m_type_handler
      = some type_handler_timestamp ∧
    Type_handler.get_handler_by_field_type release_build
        (.enumerator legacy_timestamp_column.field_type)
      = Outcome.returns (some type_handler_timestamp2) := by
  exact ⟨rfl, rfl, rfl, rfl, rfl⟩

/-! ## Claims C22 to C25: shape of the conversion fields -/

/-- Claim C22: for every table, metadata value and target, the integer
conversion fields have maximum length 4 (TINY), 6 (SHORT), 9 (INT24), 11 (LONG)
and 20 (LONGLONG), no zerofill, and the unsigned flag of the target; the FLOAT
and DOUBLE conversion fields have maximum length 12 and 22, no decimals, no
zerofill and unsigned = false. None of the seven results depends on the
metadata. -/
theorem numeric_conversion_fields (table : TABLE) (metadata : Nat) (target : Target_field) :
    Type_handler_tiny.make_conversion_table_field table metadata target
      = some (sql.Field.Field_tiny uchar_ptr.NULL 4 (uchar_ptr.string_literal "") 1
          utype.NONE "" false target.unsigned_flag) ∧
    Type_handler_short.make_conversion_table_field table metadata target
      = some (sql.Field.Field_short uchar_ptr.NULL 6 (uchar_ptr.string_literal "") 1
          utype.NONE "" false target.unsigned_flag) ∧
    Type_handler_int24.make_conversion_table_field table metadata target
      = some (sql.Field.Field_medium uchar_ptr.NULL 9 (uchar_ptr.string_literal "") 1
          utype.NONE "" false target.unsigned_flag) ∧
    Type_handler_long.make_conversion_table_field table metadata target
      = some (sql.Field.Field_long uchar_ptr.NULL 11 (uchar_ptr.string_literal "") 1
          utype.NONE "" false target.unsigned_flag) ∧
    Type_handler_longlong.make_conversion_table_field table metadata target
      = some (sql.Field.Field_longlong uchar_ptr.NULL 20 (uchar_ptr.string_literal "") 1
          utype.NONE "" false target.unsigned_flag) ∧
    Type_handler_float.make_conversion_table_field table metadata target
      = some (sql.Field.Field_float uchar_ptr.NULL 12 (uchar_ptr.string_literal "") 1
          utype.NONE "" 0 false false) ∧
    Type_handler_double.make_conversion_table_field table metadata target
      = some (sql.Field.Field_double uchar_ptr.NULL 22 (uchar_ptr.string_literal "") 1
          utype.NONE "" 0 false false) ∧
    (∀ other : Nat,
      Type_handler_tiny.make_conversion_table_field table metadata target
        = Type_handler_tiny.make_conversion_table_field table other target ∧
      Type_handler_short.make_conversion_table_field table metadata target
        = Type_handler_short.make_conversion_table_field table other target ∧
      Type_handler_int24.make_conversion_table_field table metadata target
        = Type_handler_int24.make_conversion_table_field table other target ∧
      Type_handler_long.make_conversion_table_field table metadata target
        = Type_handler_long.make_conversion_table_field table other target ∧
      Type_handler_longlong.make_conversion_table_field table metadata target
        = Type_handler_longlong.make_conversion_table_field table other target ∧
      Type_handler_float.make_conversion_table_field table metadata target
        = Type_handler_float.make_conversion_table_field table other target ∧
      Type_handler_double.make_conversion_table_field table metadata target
        = Type_handler_double.make_conversion_table_field table other target) := by
  exact ⟨rfl, rfl, rfl, rfl, rfl, rfl, rfl, fun _ => ⟨rfl, rfl, rfl, rfl, rfl, rfl, rfl⟩⟩

/-- Claim C23: for every table, metadata value and target, the BLOB-family
conversion fields are `Field_blob` objects with length-prefix width 1 for
TINY_BLOB, 2 for BLOB, 3 for MEDIUM_BLOB and 4 for LONG_BLOB, in the character
set of the target. None of the four results depends on the metadata. -/
theorem blob_conversion_fields (table : TABLE) (metadata : Nat) (target : Target_field) :
    Type_handler_tiny_blob.make_conversion_table_field table metadata target
      = some (sql.Field.Field_blob uchar_ptr.NULL (uchar_ptr.string_literal "") 1
          utype.NONE "" table.s 1 target.charset) ∧
    Type_handler_blob.make_conversion_table_field table metadata target
      = some (sql.Field.Field_blob uchar_ptr.NULL (uchar_ptr.string_literal "") 1
          utype.NONE "" table.s 2 target.charset) ∧
    Type_handler_medium_blob.make_conversion_table_field table metadata target
      = some (sql.Field.Field_blob uchar_ptr.NULL (uchar_ptr.string_literal "") 1
          utype.NONE "" table.s 3 target.charset) ∧
    Type_handler_long_blob.make_conversion_table_field table metadata target
      = some (sql.Field.Field_blob uchar_ptr.NULL (uchar_ptr.string_literal "") 1
          utype.NONE "" table.s 4 target.charset) ∧
    (∀ other : Nat,
      Type_handler_tiny_blob.make_conversion_table_field table metadata target
        = Type_handler_tiny_blob.make_conversion_table_field table other target ∧
      Type_handler_blob.make_conversion_table_field table metadata target
        = Type_handler_blob.make_conversion_table_field table other target ∧
      Type_handler_medium_blob.make_conversion_table_field table metadata target
        = Type_handler_medium_blob.make_conversion_table_field table other target ∧
      Type_handler_long_blob.make_conversion_table_field table metadata target
        = Type_handler_long_blob.make_conversion_table_field table other target) := by
  exact ⟨rfl, rfl, rfl, rfl, fun _ => ⟨rfl, rfl, rfl, rfl⟩⟩

/-- Claim C24, as stated, fails: for one and the same ENUM target, the metadata
values 1 and 2 give conversion fields whose element storage width is 1 and 2; the
width follows the metadata, not the target. The same holds for a SET target. -/
theorem enum_set_storage_width_follows_metadata :
    Type_handler_enum.make_conversion_table_field release_build sample_table 1
        sample_enum_target
      = Outcome.returns (some (sql.Field.Field_enum uchar_ptr.NULL 5
          (uchar_ptr.string_literal "") 1 utype.NONE "" 1
          sample_enum_target.typelib sample_enum_target.charset)) ∧
    Type_handler_enum.make_conversion_table_field release_build sample_table 2
        sample_enum_target
      = Outcome.returns (some (sql.Field.Field_enum uchar_ptr.NULL 5
          (uchar_ptr.string_literal "") 1 utype.NONE "" 2
          sample_enum_target.typelib sample_enum_target.charset)) ∧
    Type_handler_enum.make_conversion_table_field release_build sample_table 1
        sample_enum_target
      ≠ Type_handler_enum.make_conversion_table_field release_build sample_table 2
          sample_enum_target ∧
    Type_handler_set.make_conversion_table_field release_build sample_table 1
        sample_set_target
      ≠ Type_handler_set.make_conversion_table_field release_build sample_table 2
          sample_set_target := by
  decide

/-- Claim C24 (amended): in every build, for every metadata value and every ENUM
(respectively SET) target, the conversion field is a `Field_enum` (`Field_set`)
with the value list, the character set and the field length of the target, and
with the low byte of the metadata as its element storage width. -/
theorem enum_set_conversion_fields (cfg : Build) (table : TABLE) (metadata : Nat)
    (target : Target_field) (htype : target.type = MYSQL_TYPE_STRING) :
    (target.real_type = MYSQL_TYPE_ENUM →
      Type_handler_enum.make_conversion_table_field cfg table metadata target
        = Outcome.returns (some (sql.Field.Field_enum uchar_ptr.NULL target.field_length
            (uchar_ptr.string_literal "") 1 utype.NONE "" (metadata &&& 0xFF)
            target.typelib target.charset))) ∧
    (target.real_type = MYSQL_TYPE_SET →
      Type_handler_set.make_conversion_table_field cfg table metadata target
        = Outcome.returns (some (sql.Field.Field_set uchar_ptr.NULL target.field_length
            (uchar_ptr.string_literal "") 1 utype.NONE "" (metadata &&& 0xFF)
            target.typelib target.charset))) := by
  constructor
  · intro hreal
    simp [Type_handler_enum.make_conversion_table_field, DBUG_ASSERT, htype, hreal, TMPNAME]
  · intro hreal
    simp [Type_handler_set.make_conversion_table_field, DBUG_ASSERT, htype, hreal, TMPNAME]

/-- Witness for claim C24 (amended): in a debug build, metadata 0xF702 for the
sample ENUM target and metadata 0xF801 for the sample SET target. -/
theorem enum_set_conversion_fields_witness :
    (sample_enum_target.type = MYSQL_TYPE_STRING ∧
      sample_enum_target.real_type = MYSQL_TYPE_ENUM ∧
      Type_handler_enum.make_conversion_table_field debug_build sample_table 0xF702
          sample_enum_target
        = Outcome.returns (some (sql.Field.Field_enum uchar_ptr.NULL 5
            (uchar_ptr.string_literal "") 1 utype.NONE "" 2
            ⟨["small", "mid", "large"]⟩ cs_single_byte))) ∧
    (sample_set_target.type = MYSQL_TYPE_STRING ∧
      sample_set_target.real_type = MYSQL_TYPE_SET ∧
      Type_handler_set.make_conversion_table_field debug_build sample_table 0xF801
          sample_set_target
        = Outcome.returns (some (sql.Field.Field_set uchar_ptr.NULL 3
            (uchar_ptr.string_literal "") 1 utype.NONE "" 1
            ⟨["a", "b"]⟩ cs_single_byte))) :=
  ⟨⟨rfl, rfl,
      (enum_set_conversion_fields debug_build sample_table 0xF702 sample_enum_target rfl).1
        rfl⟩,
    ⟨rfl, rfl,
      (enum_set_conversion_fields debug_build sample_table 0xF801 sample_set_target rfl).2
        rfl⟩⟩

/-- Claim C25: in every build, for every handler, table, metadata value and
target for which `make_conversion_table_field` returns a field, that field has
the empty string as its name, a null data pointer, a non-null null-indicator
pointer and null bit 1; for every handler but the NULL handler the null-indicator
pointer is the one passed at the call, the empty string literal. -/
theorem conversion_field_is_placeholder (cfg : Build) (DECIMAL_MAX_SCALE : Nat)
    (my_decimal_precision_to_length : Nat → Nat → Bool → Nat)
    (HA_VARCHAR_PACKLENGTH : Nat → Nat) (handler : Type_handler)
    (table : TABLE) (metadata : Nat) (target : Target_field) (field : sql.Field)
    (hret : Type_handler.make_conversion_table_field cfg DECIMAL_MAX_SCALE
        my_decimal_precision_to_length HA_VARCHAR_PACKLENGTH handler table metadata target
      = Outcome.returns (some field)) :
    field.field_name = "" ∧
    field.ptr = uchar_ptr.NULL ∧
    field.null_ptr ≠ uchar_ptr.NULL ∧
    field.null_bit = 1 ∧
    (handler ≠ type_handler_null → field.null_ptr = uchar_ptr.string_literal "") := by
  cases handler <;>
    simp only [Type_handler.make_conversion_table_field,
      Type_handler_tiny.make_conversion_table_field,
      Type_handler_short.make_conversion_table_field,
      Type_handler_int24.make_conversion_table_field,
      Type_handler_long.make_conversion_table_field,
      Type_handler_longlong.make_conversion_table_field,
      Type_handler_float.make_conversion_table_field,
      Type_handler_double.make_conversion_table_field,
      Type_handler_newdecimal.make_conversion_table_field,
      Type_handler_olddecimal.make_conversion_table_field,
      Type_handler_year.make_conversion_table_field,
      Type_handler_null.make_conversion_table_field,
      Type_handler_timestamp.make_conversion_table_field,
      Type_handler_timestamp2.make_conversion_table_field,
      Type_handler_newdate.make_conversion_table_field,
      Type_handler_date.make_conversion_table_field,
      Type_handler_time.make_conversion_table_field,
      Type_handler_time2.make_conversion_table_field,
      Type_handler_datetime.make_conversion_table_field,
      Type_handler_datetime2.make_conversion_table_field,
      Type_handler_bit.make_conversion_table_field,
      Type_handler_string.make_conversion_table_field,
      Type_handler_varchar.make_conversion_table_field,
      Type_handler_tiny_blob.make_conversion_table_field,
      Type_handler_blob.make_conversion_table_field,
      Type_handler_medium_blob.make_conversion_table_field,
      Type_handler_long_blob.make_conversion_table_field,
      Type_handler_geometry.make_conversion_table_field,
      Type_handler_enum.make_conversion_table_field,
      Type_handler_set.make_conversion_table_field,
      DBUG_ASSERT, TMPNAME] at hret <;>
    (try split_ifs at hret) <;>
    (try simp only [Outcome.returns.injEq, Option.some.injEq, reduceCtorEq] at hret) <;>
    (try subst hret) <;>
    simp [sql.Field.field_name, sql.Field.ptr, sql.Field.null_ptr, sql.Field.null_bit,
      Field_null_null_indicator]

/-- Witness for claim C25: the VARCHAR conversion field for metadata 300. -/
theorem conversion_field_is_placeholder_witness :
    Type_handler.make_conversion_table_field release_build 38 sample_decimal_length
        sample_varchar_packlength type_handler_varchar sample_table 300 sample_target
      = Outcome.returns (some (sql.Field.Field_varstring uchar_ptr.NULL 300 2
          (uchar_ptr.string_literal "") 1 utype.NONE "" sample_table.s cs_single_byte)) ∧
    (sql.Field.Field_varstring uchar_ptr.NULL 300 2
        (uchar_ptr.string_literal "") 1 utype.NONE "" sample_table.s
        cs_single_byte).field_name = "" ∧
    (sql.Field.Field_varstring uchar_ptr.NULL 300 2
        (uchar_ptr.string_literal "") 1 utype.NONE "" sample_table.s
        cs_single_byte).ptr = uchar_ptr.NULL ∧
    (sql.Field.Field_varstring uchar_ptr.NULL 300 2
        (uchar_ptr.string_literal "") 1 utype.NONE "" sample_table.s
        cs_single_byte).null_ptr ≠ uchar_ptr.NULL ∧
    (sql.Field.Field_varstring uchar_ptr.NULL 300 2
        (uchar_ptr.string_literal "") 1 utype.NONE "" sample_table.s
        cs_single_byte).null_bit = 1 :=
  ⟨rfl,
    (conversion_field_is_placeholder release_build 38 sample_decimal_length
      sample_varchar_packlength type_handler_varchar sample_table 300 sample_target _
      rfl).1,
    (conversion_field_is_placeholder release_build 38 sample_decimal_length
      sample_varchar_packlength type_handler_varchar sample_table 300 sample_target _
      rfl).2.1,
    (conversion_field_is_placeholder release_build 38 sample_decimal_length
      sample_varchar_packlength type_handler_varchar sample_table 300 sample_target _
      rfl).2.2.1,
    (conversion_field_is_placeholder release_build 38 sample_decimal_length
      sample_varchar_packlength type_handler_varchar sample_table 300 sample_target _
      rfl).2.2.2.1⟩

/-! ## Claim C26: choice of the comparator -/

/-- Claim C26: each of the six definitions of `set_comparator_func` calls exactly
the installer of its own category and hands back the state and the flag of that
call unchanged; so for every handler the call installs the comparison strategy of
the comparison category of the handler, a handler of category ROW always gets the
row installer, and two handlers of the same category get the same result. -/
theorem comparator_by_category {σ : Type} (methods : Arg_comparator σ) (cmp : σ) :
    Type_handler_row.set_comparator_func methods cmp = methods.set_cmp_func_row cmp ∧
    Type_handler_int_result.set_comparator_func methods cmp = methods.set_cmp_func_int cmp ∧
    Type_handler_real_result.set_comparator_func methods cmp
      = methods.set_cmp_func_real cmp ∧
    Type_handler_decimal_result.set_comparator_func methods cmp
      = methods.set_cmp_func_decimal cmp ∧
    Type_handler_string_result.set_comparator_func methods cmp
      = methods.set_cmp_func_string cmp ∧
    Type_handler_temporal_result.set_comparator_func methods cmp
      = methods.set_cmp_func_temporal cmp ∧
    (∀ handler : Type_handler,
      handler.set_comparator_func methods cmp
        = spec_comparator_of_category methods handler.cmp_type cmp) ∧
    (∀ handler : Type_handler, handler.cmp_type = ROW_RESULT →
      handler.set_comparator_func methods cmp = methods.set_cmp_func_row cmp) ∧
    (∀ h1 h2 : Type_handler, h1.cmp_type = h2.cmp_type →
      h1.set_comparator_func methods cmp = h2.set_comparator_func methods cmp) := by
  refine ⟨rfl, rfl, rfl, rfl, rfl, rfl, ?_, ?_, ?_⟩
  · intro handler
    unfold Type_handler.set_comparator_func
    cases handler.cmp_type <;> rfl
  · intro handler hrow
    unfold Type_handler.set_comparator_func
    rw [hrow]
    rfl
  · intro h1 h2 hcat
    unfold Type_handler.set_comparator_func
    rw [hcat]

/-- Witness for claim C26: with the recording comparator, the row handler calls
the row installer only and hands back its failure flag; the SMALLINT and the
BIGINT handler, both of category INTEGER, give the same result. -/
theorem comparator_by_category_witness :
    (type_handler_row.cmp_type = ROW_RESULT ∧
      type_handler_row.set_comparator_func recording_comparator []
        = ([ROW_RESULT], false)) ∧
    (type_handler_short.cmp_type = type_handler_longlong.cmp_type ∧
      type_handler_short.set_comparator_func recording_comparator []
        = type_handler_longlong.set_comparator_func recording_comparator []) :=
  ⟨⟨rfl, (comparator_by_category recording_comparator []).2.2.2.2.2.2.2.1
      type_handler_row rfl⟩,
    ⟨rfl, (comparator_by_category recording_comparator []).2.2.2.2.2.2.2.2
      type_handler_short type_handler_longlong rfl⟩⟩

/-! ## Claims C27 and C28: the metadata decoders are inverses of the packing -/

/-- The BIT conversion field on well-formed 32-bit metadata, in arithmetic form. -/
theorem bit_conversion_field_arith (cfg : Build) (table : TABLE) (metadata : Nat)
    (target : Target_field) (h32 : metadata < 2 ^ 32) (hextra : metadata &&& 0xFF ≤ 7) :
    Type_handler_bit.make_conversion_table_field cfg table metadata target
      = Outcome.returns (some (sql.Field.Field_bit_as_char uchar_ptr.NULL
          (8 * (metadata / 256) + metadata % 256)
          (uchar_ptr.string_literal "") 1 utype.NONE "")) := by
  have hfit : to_uint32 (8 * (metadata >>> 8) + (metadata &&& 0xFF))
      = 8 * (metadata / 256) + metadata % 256 := by
    rw [and_0xff_eq_mod, Nat.shiftRight_eq_div_pow]
    unfold to_uint32
    omega
  simp only [Type_handler_bit.make_conversion_table_field, DBUG_ASSERT, hextra,
    decide_True, Bool.not_true, Bool.and_false, TMPNAME]
  rw [hfit]
  rfl

/-- Claim C27: for every 32-bit BIT metadata value whose low byte e is at most
7, with b = metadata >> 8, the conversion field has a maximum length L with
L / 8 = b and L mod 8 = e; and two such metadata values that give the same
conversion field are equal. -/
theorem bit_decode_invertible (cfg : Build) (table : TABLE) (target : Target_field)
    (metadata : Nat) (h32 : metadata < 2 ^ 32) (hextra : metadata &&& 0xFF ≤ 7) :
    (∃ L : Nat,
      Type_handler_bit.make_conversion_table_field cfg table metadata target
        = Outcome.returns (some (sql.Field.Field_bit_as_char uchar_ptr.NULL L
            (uchar_ptr.string_literal "") 1 utype.NONE "")) ∧
      L = 8 * (metadata >>> 8) + (metadata &&& 0xFF) ∧
      L / 8 = metadata >>> 8 ∧ L % 8 = metadata &&& 0xFF) ∧
    (∀ other : Nat, other < 2 ^ 32 → other &&& 0xFF ≤ 7 →
      Type_handler_bit.make_conversion_table_field cfg table metadata target
        = Type_handler_bit.make_conversion_table_field cfg table other target →
      metadata = other) := by
  have hm := bit_conversion_field_arith cfg table metadata target h32 hextra
  have he : metadata % 256 ≤ 7 := by rw [← and_0xff_eq_mod]; exact hextra
  constructor
  · refine ⟨8 * (metadata / 256) + metadata % 256, hm, ?_, ?_, ?_⟩
    · rw [and_0xff_eq_mod, Nat.shiftRight_eq_div_pow]
    · rw [Nat.shiftRight_eq_div_pow]
      omega
    · rw [and_0xff_eq_mod]
      omega
  · intro other ho32 hoextra heq
    have ho := bit_conversion_field_arith cfg table other target ho32 hoextra
    have hoe : other % 256 ≤ 7 := by rw [← and_0xff_eq_mod]; exact hoextra
    rw [hm, ho] at heq
    simp only [Outcome.returns.injEq, Option.some.injEq, sql.Field.Field_bit_as_char.injEq,
      true_and, and_true] at heq
    omega

/-- Witness for claim C27: metadata 0x0203 decodes to the length 19, with
19 / 8 = 2 and 19 mod 8 = 3; metadata 0x0300 decodes to another field. -/
theorem bit_decode_invertible_witness :
    0x0203 < 2 ^ 32 ∧ 0x0203 &&& 0xFF ≤ 7 ∧
    (∃ L : Nat,
      Type_handler_bit.make_conversion_table_field debug_build sample_table 0x0203
          sample_target
        = Outcome.returns (some (sql.Field.Field_bit_as_char uchar_ptr.NULL L
            (uchar_ptr.string_literal "") 1 utype.NONE "")) ∧
      L = 8 * (0x0203 >>> 8) + (0x0203 &&& 0xFF) ∧
      L / 8 = 0x0203 >>> 8 ∧ L % 8 = 0x0203 &&& 0xFF) ∧
    Type_handler_bit.make_conversion_table_field debug_build sample_table 0x0203
        sample_target
      ≠ Type_handler_bit.make_conversion_table_field debug_build sample_table 0x0300
          sample_target :=
  ⟨by decide, by decide,
    (bit_decode_invertible debug_build sample_table sample_target 0x0203
      (by decide) (by decide)).1,
    fun heq => absurd
      ((bit_decode_invertible debug_build sample_table sample_target 0x0203
        (by decide) (by decide)).2 0x0300 (by decide) (by decide) heq)
      (by decide)⟩

/-- The length the STRING unpack formula computes never exceeds 1023, so the
conversion to `uint32` leaves it unchanged: the conversion field in closed form. -/
theorem string_conversion_field_eq (table : TABLE) (metadata : Nat)
    (target : Target_field) :
    Type_handler_string.make_conversion_table_field table metadata target
      = some (sql.Field.Field_string uchar_ptr.NULL
          ((((metadata >>> 4) &&& 0x300) ^^^ 0x300) + (metadata &&& 0xFF))
          (uchar_ptr.string_literal "") 1 utype.NONE "" target.charset) := by
  have hfit : to_uint32 ((((metadata >>> 4) &&& 0x300) ^^^ 0x300) + (metadata &&& 0xFF))
      = (((metadata >>> 4) &&& 0x300) ^^^ 0x300) + (metadata &&& 0xFF) := by
    have hb := string_unpack_formula metadata
    unfold to_uint32
    omega
  simp only [Type_handler_string.make_conversion_table_field, TMPNAME]
  rw [hfit]

set_option maxRecDepth 40000 in
/-- Unpacking after packing with the type byte 0xFE gives the length back, for
every length below 1024. -/
theorem string_unpack_pack_below_1024 : ∀ L, L < 1024 →
    (((spec_string_metadata_pack 0xFE L >>> 4) &&& 0x300) ^^^ 0x300)
      + (spec_string_metadata_pack 0xFE L &&& 0xFF) = L := by
  decide

/-- Claim C28: for every field length L with 0 ≤ L ≤ 1023 and the type byte
0xFE (MYSQL_TYPE_STRING), the metadata
`((0xFE ^ ((L & 0x300) >> 4)) << 8) | (L & 0xFF)` is decoded by the unpack formula
back to L, and the fixed-length STRING conversion field built from that metadata
has maximum length exactly L. -/
theorem string_unpack_undoes_pack (table : TABLE) (target : Target_field) (L : Nat)
    (hL : L ≤ 1023) :
    spec_string_metadata_pack 0xFE L = ((0xFE ^^^ ((L &&& 0x300) >>> 4)) <<< 8) ||| (L &&& 0xFF) ∧
    (((spec_string_metadata_pack 0xFE L >>> 4) &&& 0x300) ^^^ 0x300)
      + (spec_string_metadata_pack 0xFE L &&& 0xFF) = L ∧
    Type_handler_string.make_conversion_table_field table (spec_string_metadata_pack 0xFE L)
        target
      = some (sql.Field.Field_string uchar_ptr.NULL L
          (uchar_ptr.string_literal "") 1 utype.NONE "" target.charset) := by
  have hnum := string_unpack_pack_below_1024 L (by omega)
  refine ⟨rfl, hnum, ?_⟩
  rw [string_conversion_field_eq, hnum]

/-- Witness for claim C28: the length 300 is packed to the metadata 0xEE2C and
unpacked to 300 again. -/
theorem string_unpack_undoes_pack_witness :
    300 ≤ 1023 ∧ spec_string_metadata_pack 0xFE 300 = 0xEE2C ∧
    Type_handler_string.make_conversion_table_field sample_table 0xEE2C sample_target
      = some (sql.Field.Field_string uchar_ptr.NULL 300
          (uchar_ptr.string_literal "") 1 utype.NONE "" cs_single_byte) :=
  ⟨by decide, by decide,
    (string_unpack_undoes_pack sample_table sample_target 300 (by decide)).2.2⟩

/-! ## Claim C29: the division by `mbmaxlen` -/

/-- Claim C29: for every threshold and octet length, if `mbmaxlen ≥ 1` then
`type_handler_adjusted_to_max_octet_length` returns, and what it returns is one
of the four handlers VARCHAR, BLOB, MEDIUM_BLOB and LONG_BLOB, each of which
occurs; if `mbmaxlen = 0` the unguarded division is undefined and the call
returns nothing. -/
theorem adjusted_total_iff_mbmaxlen_positive (CONVERT_IF_BIGGER_TO_BLOB : Nat)
    (max_octet_length : Nat) (cs : CHARSET_INFO) :
    (1 ≤ cs.mbmaxlen →
      ∃ handler,
        Type_handler_string_result.type_handler_adjusted_to_max_octet_length
            CONVERT_IF_BIGGER_TO_BLOB max_octet_length cs = Outcome.returns handler ∧
        (handler = type_handler_varchar ∨ handler = type_handler_blob ∨
          handler = type_handler_medium_blob ∨ handler = type_handler_long_blob)) ∧
    (cs.mbmaxlen = 0 →
      Type_handler_string_result.type_handler_adjusted_to_max_octet_length
          CONVERT_IF_BIGGER_TO_BLOB max_octet_length cs = Outcome.undefined_behaviour ∧
      ∀ handler,
        Type_handler_string_result.type_handler_adjusted_to_max_octet_length
            CONVERT_IF_BIGGER_TO_BLOB max_octet_length cs ≠ Outcome.returns handler) ∧
    ((∃ handler,
        Type_handler_string_result.type_handler_adjusted_to_max_octet_length
            CONVERT_IF_BIGGER_TO_BLOB max_octet_length cs = Outcome.returns handler)
      ↔ 1 ≤ cs.mbmaxlen) ∧
    Type_handler_string_result.type_handler_adjusted_to_max_octet_length 512 100
        cs_single_byte = Outcome.returns type_handler_varchar ∧
    Type_handler_string_result.type_handler_adjusted_to_max_octet_length 512 1000
        cs_single_byte = Outcome.returns type_handler_blob ∧
    Type_handler_string_result.type_handler_adjusted_to_max_octet_length 512 70000
        cs_single_byte = Outcome.returns type_handler_medium_blob ∧
    Type_handler_string_result.type_handler_adjusted_to_max_octet_length 512 20000000
        cs_single_byte = Outcome.returns type_handler_long_blob := by
  have hpos : 1 ≤ cs.mbmaxlen →
      ∃ handler,
        Type_handler_string_result.type_handler_adjusted_to_max_octet_length
            CONVERT_IF_BIGGER_TO_BLOB max_octet_length cs = Outcome.returns handler ∧
        (handler = type_handler_varchar ∨ handler = type_handler_blob ∨
          handler = type_handler_medium_blob ∨ handler = type_handler_long_blob) := by
    intro hmb
    have hne : cs.mbmaxlen ≠ 0 := by omega
    unfold Type_handler_string_result.type_handler_adjusted_to_max_octet_length
    rw [if_neg hne]
    split_ifs
    · exact ⟨_, rfl, Or.inl rfl⟩
    · exact ⟨_, rfl, Or.inr (Or.inr (Or.inr rfl))⟩
    · exact ⟨_, rfl, Or.inr (Or.inr (Or.inl rfl))⟩
    · exact ⟨_, rfl, Or.inr (Or.inl rfl)⟩
  have hzero : cs.mbmaxlen = 0 →
      Type_handler_string_result.type_handler_adjusted_to_max_octet_length
          CONVERT_IF_BIGGER_TO_BLOB max_octet_length cs = Outcome.undefined_behaviour := by
    intro hz
    unfold Type_handler_string_result.type_handler_adjusted_to_max_octet_length
    rw [if_pos hz]
  refine ⟨hpos, ?_, ?_, by decide, by decide, by decide, by decide⟩
  · intro hz
    refine ⟨hzero hz, fun handler heq => ?_⟩
    rw [hzero hz] at heq
    exact Outcome.noConfusion heq
  · constructor
    · rintro ⟨handler, heq⟩
      by_contra hmb
      rw [hzero (by omega)] at heq
      exact Outcome.noConfusion heq
    · intro hmb
      obtain ⟨handler, heq, -⟩ := hpos hmb
      exact ⟨handler, heq⟩

/-- Witness for claim C29: a three-byte character set gives a handler (VARCHAR
for 1536 octets at the threshold 512); a character set whose `mbmaxlen` is 0 gives
no result. -/
theorem adjusted_total_iff_mbmaxlen_positive_witness :
    (1 ≤ cs_three_byte.mbmaxlen ∧
      ∃ handler,
        Type_handler_string_result.type_handler_adjusted_to_max_octet_length
            512 1536 cs_three_byte = Outcome.returns handler ∧
        (handler = type_handler_varchar ∨ handler = type_handler_blob ∨
          handler = type_handler_medium_blob ∨ handler = type_handler_long_blob)) ∧
    ((CHARSET_INFO.mk 99 0).mbmaxlen = 0 ∧
      Type_handler_string_result.type_handler_adjusted_to_max_octet_length
          512 1536 (CHARSET_INFO.mk 99 0) = Outcome.undefined_behaviour) :=
  ⟨⟨by decide,
      (adjusted_total_iff_mbmaxlen_positive 512 1536 cs_three_byte).1 (by decide)⟩,
    ⟨rfl,
      ((adjusted_total_iff_mbmaxlen_positive 512 1536 (CHARSET_INFO.mk 99 0)).2.1 rfl).1⟩⟩
